import Mathlib

/-!
# The generic CPU object: persistence record, lifecycle, capability dispatch,
model selection and fatal error report

A shallow embedding of `cpu-target.c` and `hw/core/cpu-system.c`.

* C objects are Lean structures; the class of an instance (`CPU_GET_CLASS(cpu)`,
  `cpu->cc`) is passed next to the instance.
* `uint32_t` fields are `Nat`, `int` fields are `Int`; a function pointer that may be
  `NULL` is an `Option`.
* The global `tcg_enabled()` is the Boolean parameter `tcg_enabled`.
* A call that ends the process (`assert`, `exit`, a call through `NULL`) is an explicit
  outcome, never a silent default.
-/

namespace QemuCpu

/-! ## Data model -/

/-- Identity of a `VMStateDescription` object (its address): the common record of
`cpu-target.c`, or a record owned by a target or a device. -/
inductive VMStateRef where
  | vmstate_cpu_common
  | target (id : Nat)
  deriving DecidableEq, Repr

/-- The fields of `CPUState` that the two files read or write. `self` is the address of
the object (its identity); `tlb_flush_count` and `tb_flush_count` count the cache
invalidations requested for the instance. -/
structure CPUState where
  self : Nat
  cpu_index : Int
  num_ases : Int
  halted : Nat
  interrupt_request : Nat
  exception_index : Int
  crash_occurred : Bool
  singlestep_enabled : Int
  start_powered_off : Bool
  tlb_flush_count : Nat
  tb_flush_count : Nat
  deriving DecidableEq, Repr

/-- The value `UNASSIGNED_CPU_INDEX` of `cpu_index` before registration. -/
def UNASSIGNED_CPU_INDEX : Int := -1

/-! ## The common state record (`cpu-target.c`, lines 43-131) -/

/-- Modelled from the spec: `tlb_flush` (defined elsewhere in the repository) discards the
translation cache of the instance; the model counts the request. -/
def tlb_flush (cpu : CPUState) : CPUState :=
  { cpu with tlb_flush_count := cpu.tlb_flush_count + 1 }

/-- Modelled from the spec: `tb_flush` (defined elsewhere in the repository) discards the
translated code; the model counts the request. -/
def tb_flush (cpu : CPUState) : CPUState :=
  { cpu with tb_flush_count := cpu.tb_flush_count + 1 }

/-- The post-load hook. `cpu->interrupt_request &= ~0x01` on a `uint32_t` is a bitwise
and with `0xFFFFFFFE`. Returns the hook's `int` result and the instance. -/
def cpu_common_post_load (tcg_enabled : Bool) (cpu : CPUState) (_version_id : Int) :
    Int × CPUState :=
  if tcg_enabled then
    let cpu := { cpu with interrupt_request := cpu.interrupt_request &&& 0xFFFFFFFE }
    let cpu := tlb_flush cpu
    let cpu := tb_flush cpu
    (0, cpu)
  else
    (0, cpu)

/-- The pre-load hook. -/
def cpu_common_pre_load (cpu : CPUState) : Int × CPUState :=
  (0, { cpu with exception_index := -1 })

/-- Inclusion predicate of the subsection `cpu_common/exception_index`. -/
def cpu_common_exception_index_needed (tcg_enabled : Bool) (cpu : CPUState) : Bool :=
  tcg_enabled && cpu.exception_index != -1

/-- Inclusion predicate of the subsection `cpu_common/crash_occurred`. -/
def cpu_common_crash_occurred_needed (cpu : CPUState) : Bool :=
  cpu.crash_occurred

/-- A typed value of the state stream. -/
inductive VMStateValue where
  | uint32 (v : Nat)
  | int32 (v : Int)
  | bool (v : Bool)
  deriving DecidableEq, Repr

/-- A field descriptor (`VMStateField`): how the field is read from and written to the
instance. Writing a value of another type fails. -/
structure VMStateField where
  name : String
  get : CPUState → VMStateValue
  put : CPUState → VMStateValue → Option CPUState

/-- The descriptor `VMSTATE_UINT32(halted, CPUState)`. -/
def VMSTATE_UINT32_halted : VMStateField where
  name := "halted"
  get := fun cpu => .uint32 cpu.halted
  put := fun cpu v =>
    match v with
    | .uint32 n => some { cpu with halted := n }
    | _ => none

/-- The descriptor `VMSTATE_UINT32(interrupt_request, CPUState)`. -/
def VMSTATE_UINT32_interrupt_request : VMStateField where
  name := "interrupt_request"
  get := fun cpu => .uint32 cpu.interrupt_request
  put := fun cpu v =>
    match v with
    | .uint32 n => some { cpu with interrupt_request := n }
    | _ => none

/-- The descriptor `VMSTATE_INT32(exception_index, CPUState)`. -/
def VMSTATE_INT32_exception_index : VMStateField where
  name := "exception_index"
  get := fun cpu => .int32 cpu.exception_index
  put := fun cpu v =>
    match v with
    | .int32 z => some { cpu with exception_index := z }
    | _ => none

/-- The descriptor `VMSTATE_BOOL(crash_occurred, CPUState)`. -/
def VMSTATE_BOOL_crash_occurred : VMStateField where
  name := "crash_occurred"
  get := fun cpu => .bool cpu.crash_occurred
  put := fun cpu v =>
    match v with
    | .bool b => some { cpu with crash_occurred := b }
    | _ => none

/-- A `VMStateDescription` used as a subsection: the two subsections of the common
record have an inclusion predicate and fields, no hooks and no subsections. -/
structure VMStateSubsection where
  name : String
  version_id : Nat
  minimum_version_id : Nat
  needed : Bool → CPUState → Bool
  fields : List VMStateField

/-- A top-level `VMStateDescription`. -/
structure VMStateDescription where
  name : String
  version_id : Nat
  minimum_version_id : Nat
  pre_load : Option (CPUState → Int × CPUState)
  post_load : Option (Bool → CPUState → Int → Int × CPUState)
  fields : List VMStateField
  subsections : List VMStateSubsection

/-- The subsection record `vmstate_cpu_common_exception_index`. -/
def vmstate_cpu_common_exception_index : VMStateSubsection where
  name := "cpu_common/exception_index"
  version_id := 1
  minimum_version_id := 1
  needed := cpu_common_exception_index_needed
  fields := [VMSTATE_INT32_exception_index]

/-- The subsection record `vmstate_cpu_common_crash_occurred`. -/
def vmstate_cpu_common_crash_occurred : VMStateSubsection where
  name := "cpu_common/crash_occurred"
  version_id := 1
  minimum_version_id := 1
  needed := fun _ cpu => cpu_common_crash_occurred_needed cpu
  fields := [VMSTATE_BOOL_crash_occurred]

/-- The record `vmstate_cpu_common`. -/
def vmstate_cpu_common : VMStateDescription where
  name := "cpu_common"
  version_id := 1
  minimum_version_id := 1
  pre_load := some cpu_common_pre_load
  post_load := some cpu_common_post_load
  fields := [VMSTATE_UINT32_halted, VMSTATE_UINT32_interrupt_request]
  subsections := [vmstate_cpu_common_exception_index, vmstate_cpu_common_crash_occurred]

/-! ## The save and load protocol of a state record -/

/-- A saved subsection of the state stream: name, version, field values. -/
structure SavedSubsection where
  name : String
  version : Nat
  fields : List VMStateValue
  deriving DecidableEq, Repr

/-- A saved record of the state stream: name, version, field values, nested
subsections. -/
structure SavedRecord where
  name : String
  version : Nat
  fields : List VMStateValue
  subsections : List SavedSubsection
  deriving DecidableEq, Repr

/-- Result of a load. -/
inductive LoadStatus where
  | ok
  | version_error
  | hook_error (ret : Int)
  | field_error
  deriving DecidableEq, Repr

/-- Modelled from the spec: the field part of "Save" of the generic save driver
(`vmstate_save_state`, defined elsewhere in the repository): the declared fields in
order. -/
def vmstate_save_fields (fields : List VMStateField) (cpu : CPUState) : List VMStateValue :=
  fields.map (fun f => f.get cpu)

/-- Modelled from the spec: "Save" of the generic save driver (`vmstate_save_state`,
defined elsewhere in the repository): the declared fields in order, then each subsection
whose predicate holds, nested under its name. -/
def vmstate_save_state (tcg_enabled : Bool) (vmsd : VMStateDescription) (cpu : CPUState) :
    SavedRecord where
  name := vmsd.name
  version := vmsd.version_id
  fields := vmstate_save_fields vmsd.fields cpu
  subsections :=
    (vmsd.subsections.filter (fun sub => sub.needed tcg_enabled cpu)).map
      (fun sub =>
        { name := sub.name, version := sub.version_id,
          fields := vmstate_save_fields sub.fields cpu })

/-- Modelled from the spec: "apply fields in declared order" of the generic load driver
(`vmstate_load_state`, defined elsewhere in the repository). The Boolean tells whether
every declared field found a value of its type; the instance keeps the fields applied
so far. -/
def vmstate_load_fields : List VMStateField → List VMStateValue → CPUState → Bool × CPUState
  | [], _, cpu => (true, cpu)
  | _ :: _, [], cpu => (false, cpu)
  | f :: fs, v :: vs, cpu =>
    match f.put cpu v with
    | none => (false, cpu)
    | some cpu1 => vmstate_load_fields fs vs cpu1

/-- Modelled from the spec: the subsection part of "Load" of the generic load driver
(`vmstate_load_state`, defined elsewhere in the repository): each subsection present in
the stream is matched by name and loaded (version check, then fields); a subsection of
the stream that matches no declared one is skipped, and so is a declared one absent from
the stream. -/
def vmstate_subsection_load (declared : List VMStateSubsection) :
    List SavedSubsection → CPUState → LoadStatus × CPUState
  | [], cpu => (.ok, cpu)
  | s :: rest, cpu =>
    match declared.find? (fun d => d.name == s.name) with
    | none => vmstate_subsection_load declared rest cpu
    | some d =>
      if s.version < d.minimum_version_id then (.version_error, cpu)
      else
        match vmstate_load_fields d.fields s.fields cpu with
        | (false, cpu1) => (.field_error, cpu1)
        | (true, cpu1) => vmstate_subsection_load declared rest cpu1

/-- Modelled from the spec: "Load" of the generic load driver (`vmstate_load_state`,
defined elsewhere in the repository), in the order the spec gives: the pre-load hook; the
version check against the minimum accepted version; the fields in declared order; the
subsections present in the stream; the post-load hook last. The instance is mutated in
place, so the result carries the instance as it is when the load returns. -/
def vmstate_load_state (tcg_enabled : Bool) (vmsd : VMStateDescription) (cpu : CPUState)
    (saved : SavedRecord) : LoadStatus × CPUState :=
  let pre : Int × CPUState :=
    match vmsd.pre_load with
    | none => (0, cpu)
    | some hook => hook cpu
  if pre.1 ≠ 0 then (.hook_error pre.1, pre.2)
  else if saved.version < vmsd.minimum_version_id then (.version_error, pre.2)
  else
    match vmstate_load_fields vmsd.fields saved.fields pre.2 with
    | (false, cpu1) => (.field_error, cpu1)
    | (true, cpu1) =>
      match vmstate_subsection_load vmsd.subsections saved.subsections cpu1 with
      | (.ok, cpu2) =>
        match vmsd.post_load with
        | none => (.ok, cpu2)
        | some hook =>
          let post := hook tcg_enabled cpu2 saved.version
          if post.1 ≠ 0 then (.hook_error post.1, post.2) else (.ok, post.2)
      | (err, cpu2) => (err, cpu2)

/-- A stream for the common record at the current version that stores the given values
of the two fields and the given subsections. -/
def cpu_common_stream (halted interrupt_request : Nat) (subsections : List SavedSubsection) :
    SavedRecord where
  name := "cpu_common"
  version := 1
  fields := [.uint32 halted, .uint32 interrupt_request]
  subsections := subsections

/-- An instance as constructed and not yet realized: index unassigned, every persisted
field at its default. -/
def fresh_cpu (self : Nat) : CPUState where
  self := self
  cpu_index := UNASSIGNED_CPU_INDEX
  num_ases := 0
  halted := 0
  interrupt_request := 0
  exception_index := -1
  crash_occurred := false
  singlestep_enabled := 0
  start_powered_off := false
  tlb_flush_count := 0
  tb_flush_count := 0

/-! ## Classes and capability tables -/

/-- Transaction attributes (`MemTxAttrs`). The two files read or write the bit-fields
`unspecified` and `debug`; `other` stands for the remaining bit-fields together. -/
structure MemTxAttrs where
  unspecified : Bool
  debug : Bool
  other : Nat
  deriving DecidableEq, Repr

/-- Modelled from the spec: the constant `MEMTXATTRS_UNSPECIFIED` (declared elsewhere in
the repository), the "unspecified default transaction attributes": only the
`unspecified` bit is set. -/
def MEMTXATTRS_UNSPECIFIED : MemTxAttrs :=
  { unspecified := true, debug := false, other := 0 }

/-- The zero-initialised attributes `MemTxAttrs attrs = {}`. -/
def MemTxAttrs.zero : MemTxAttrs :=
  { unspecified := false, debug := false, other := 0 }

/-- A list of guest memory mappings (`MemoryMappingList`): physical address, virtual
address, length. -/
abbrev MemoryMappingList := List (Nat × Nat × Nat)

/-- Guest panic information (`GuestPanicInformation`), kept as its text. -/
abbrev GuestPanicInformation := String

/-- The core-dump write callback (`WriteCoreDumpFunction`): bytes in, status out. -/
abbrev WriteCoreDumpFunction := List Nat → Int

/-- The System Operations table (`SysemuCPUOps`); an unset operation is `none`. An
operation that takes `Error **errp` returns the error it sets, and one that writes
through a pointer returns the written value. -/
structure SysemuCPUOps where
  get_paging_enabled : Option (CPUState → Bool) := none
  get_memory_mapping :
    Option (CPUState → MemoryMappingList → Bool × MemoryMappingList × Option String) := none
  get_phys_page_debug : Option (CPUState → Nat → Nat) := none
  get_phys_page_attrs_debug : Option (CPUState → Nat → MemTxAttrs → Nat × MemTxAttrs) := none
  asidx_from_attrs : Option (CPUState → MemTxAttrs → Int) := none
  get_crash_info : Option (CPUState → Option GuestPanicInformation) := none
  write_elf32_note : Option (WriteCoreDumpFunction → CPUState → Int → Nat → Int) := none
  write_elf64_note : Option (WriteCoreDumpFunction → CPUState → Int → Nat → Int) := none
  write_elf32_qemunote : Option (WriteCoreDumpFunction → CPUState → Nat → Int) := none
  write_elf64_qemunote : Option (WriteCoreDumpFunction → CPUState → Nat → Int) := none
  virtio_is_big_endian : Option (CPUState → Bool) := none
  legacy_vmsd : Option VMStateRef := none

/-- The class of an instance (`CPUClass`, with the `DeviceClass` and `ObjectClass` parts
the two files use): the class name (`object_class_get_name`), the device-level state
record (`qdev_get_vmsd`), the feature parser and the System Operations table.
`parse_features` returns the error it sets through `errp`, if any. -/
structure CPUClass where
  name : String
  vmsd : Option VMStateRef := none
  deprecation_note : Option String := none
  parse_features : String → Option String → Option String := fun _ _ => none
  sysemu_ops : SysemuCPUOps := {}

/-! ## Registry, persistence set and lifecycle (`cpu-target.c`, lines 133-176) -/

/-- A call to a collaborator of the lifecycle manager, as recorded in the trace. -/
inductive Call where
  | accel_cpu_common_realize (cpu : Nat)
  | cpu_list_add (cpu : Nat)
  | vmstate_register (instance_id : Int) (vmsd : VMStateRef) (owner : Nat)
  | vmstate_unregister (vmsd : VMStateRef) (owner : Nat)
  | cpu_list_remove (cpu : Nat)
  | accel_cpu_common_unrealize (cpu : Nat)
  deriving DecidableEq, Repr

/-- A registered state record: instance id, record, and the instance it belongs to (the
argument named opaque in the C code). -/
structure SaveStateEntry where
  instance_id : Int
  vmsd : VMStateRef
  owner : Nat
  deriving DecidableEq, Repr

/-- The process-wide state the lifecycle manager acts on: the registry (instance and its
index, in registration order), the set of registered state records, and the trace of
calls made so far. -/
structure World where
  cpus_queue : List (Nat × Int)
  handlers : List SaveStateEntry
  trace : List Call
  deriving DecidableEq, Repr

/-- Modelled from the spec: an index "unique among currently-registered instances"
(`cpu_get_free_index`, defined elsewhere in the repository): one more than the largest
index in the registry, 0 for an empty registry. -/
def cpu_get_free_index (w : World) : Int :=
  w.cpus_queue.foldl (fun acc e => max acc (e.2 + 1)) 0

/-- Modelled from the spec: the registry operation `add(instance)` (`cpu_list_add`,
defined elsewhere in the repository), which "assigns/validates its index" and appends the
instance: an unassigned index is assigned; an index set beforehand is kept when no
registered instance has it, and is a fatal error (`none`) otherwise. -/
def cpu_list_add (cpu : CPUState) (w : World) : Option (CPUState × World) :=
  let w1 := { w with trace := w.trace ++ [Call.cpu_list_add cpu.self] }
  if cpu.cpu_index = UNASSIGNED_CPU_INDEX then
    let cpu1 := { cpu with cpu_index := cpu_get_free_index w }
    some (cpu1, { w1 with cpus_queue := w.cpus_queue ++ [(cpu1.self, cpu1.cpu_index)] })
  else if w.cpus_queue.any (fun e => e.2 == cpu.cpu_index) then none
  else some (cpu, { w1 with cpus_queue := w.cpus_queue ++ [(cpu.self, cpu.cpu_index)] })

/-- Modelled from the spec: the registry operation `remove(instance)` (`cpu_list_remove`,
defined elsewhere in the repository): the instance leaves the registry; the others keep
their place and index. -/
def cpu_list_remove (cpu : CPUState) (w : World) : World :=
  { w with
    cpus_queue := w.cpus_queue.filter (fun e => e.1 != cpu.self)
    trace := w.trace ++ [Call.cpu_list_remove cpu.self] }

/-- Modelled from the spec: "registers its state record" (`vmstate_register`, defined
elsewhere in the repository): the record joins the persistence set for the instance. -/
def vmstate_register (instance_id : Int) (vmsd : VMStateRef) (owner : Nat) (w : World) :
    World :=
  { w with
    handlers := w.handlers ++ [{ instance_id := instance_id, vmsd := vmsd, owner := owner }]
    trace := w.trace ++ [Call.vmstate_register instance_id vmsd owner] }

/-- Modelled from the spec: "unregisters state record(s)" (`vmstate_unregister`, defined
elsewhere in the repository): every registration of the record for the instance leaves
the persistence set. -/
def vmstate_unregister (vmsd : VMStateRef) (owner : Nat) (w : World) : World :=
  { w with
    handlers := w.handlers.filter (fun e => !(e.vmsd == vmsd && e.owner == owner))
    trace := w.trace ++ [Call.vmstate_unregister vmsd owner] }

/-- What `cpu_exec_realizefn` hands back: its Boolean result, the error set through
`errp`, the instance and the process-wide state. -/
structure RealizeResult where
  ret : Bool
  errp : Option String
  cpu : CPUState
  world : World
  deriving DecidableEq, Repr

/-- The function `cpu_exec_realizefn`, system build. The backend's common setup
`accel_cpu_common_realize` (defined elsewhere in the repository) is a parameter that
reports the error it sets, `none` for success. The result is `none` when the process
stops on a fatal error inside `cpu_list_add`. -/
def cpu_exec_realizefn (accel_cpu_common_realize : CPUState → Option String)
    (cc : CPUClass) (cpu : CPUState) (w : World) : Option RealizeResult :=
  let w0 := { w with trace := w.trace ++ [Call.accel_cpu_common_realize cpu.self] }
  match accel_cpu_common_realize cpu with
  | some err => some { ret := false, errp := some err, cpu := cpu, world := w0 }
  | none =>
    match cpu_list_add cpu w0 with
    | none => none
    | some (cpu1, w1) =>
      let w2 :=
        if cc.vmsd = none then
          vmstate_register cpu1.cpu_index VMStateRef.vmstate_cpu_common cpu1.self w1
        else w1
      let w3 :=
        match cc.sysemu_ops.legacy_vmsd with
        | some legacy => vmstate_register cpu1.cpu_index legacy cpu1.self w2
        | none => w2
      some { ret := true, errp := none, cpu := cpu1, world := w3 }

/-- The function `cpu_exec_unrealizefn`, system build. The backend teardown
`accel_cpu_common_unrealize` (defined elsewhere in the repository) is recorded in the
trace. -/
def cpu_exec_unrealizefn (cc : CPUClass) (cpu : CPUState) (w : World) : World :=
  let w1 :=
    match cc.sysemu_ops.legacy_vmsd with
    | some legacy => vmstate_unregister legacy cpu.self w
    | none => w
  let w2 :=
    if cc.vmsd = none then vmstate_unregister VMStateRef.vmstate_cpu_common cpu.self w1
    else w1
  let w3 := cpu_list_remove cpu w2
  { w3 with trace := w3.trace ++ [Call.accel_cpu_common_unrealize cpu.self] }

/-! ## Capability dispatch (`hw/core/cpu-system.c`) -/

/-- The function `target_words_bigendian`: the macro `TARGET_BIG_ENDIAN` of the target
(defined elsewhere in the repository) is a parameter. -/
def target_words_bigendian (TARGET_BIG_ENDIAN : Bool) : Bool :=
  TARGET_BIG_ENDIAN

/-- The function `cpu_paging_enabled`. -/
def cpu_paging_enabled (cc : CPUClass) (cpu : CPUState) : Bool :=
  match cc.sysemu_ops.get_paging_enabled with
  | some op => op cpu
  | none => false

/-- The function `cpu_get_memory_mapping`: its Boolean result, the mapping list after
the call and the error set through `errp`. -/
def cpu_get_memory_mapping (cc : CPUClass) (cpu : CPUState) (list : MemoryMappingList) :
    Bool × MemoryMappingList × Option String :=
  match cc.sysemu_ops.get_memory_mapping with
  | some op => op cpu list
  | none => (false, list, some "Obtaining memory mappings is unsupported on this CPU.")

/-- The function `cpu_get_phys_page_attrs_debug`: the physical address and the
attributes written back through `attrs`. The fallback calls `get_phys_page_debug`
without a check, so with neither hook set the call goes through `NULL` (`none`). -/
def cpu_get_phys_page_attrs_debug (cc : CPUClass) (cpu : CPUState) (addr : Nat)
    (attrs : MemTxAttrs) : Option (Nat × MemTxAttrs) :=
  match cc.sysemu_ops.get_phys_page_attrs_debug with
  | some op =>
    let r := op cpu addr attrs
    some (r.1, { r.2 with debug := true })
  | none =>
    let attrs1 := MEMTXATTRS_UNSPECIFIED
    match cc.sysemu_ops.get_phys_page_debug with
    | none => none
    | some op => some (op cpu addr, { attrs1 with debug := true })

/-- The function `cpu_get_phys_page_debug`. -/
def cpu_get_phys_page_debug (cc : CPUClass) (cpu : CPUState) (addr : Nat) : Option Nat :=
  let attrs := MemTxAttrs.zero
  (cpu_get_phys_page_attrs_debug cc cpu addr attrs).map (fun r => r.1)

/-- The function `cpu_asidx_from_attrs`; `none` is the failed assertion, which ends the
process. -/
def cpu_asidx_from_attrs (cc : CPUClass) (cpu : CPUState) (attrs : MemTxAttrs) : Option Int :=
  let ret : Int := 0
  match cc.sysemu_ops.asidx_from_attrs with
  | some op =>
    let ret := op cpu attrs
    if ret < cpu.num_ases ∧ ret ≥ 0 then some ret else none
  | none => some ret

/-- The function `cpu_virtio_is_big_endian`. -/
def cpu_virtio_is_big_endian (TARGET_BIG_ENDIAN : Bool) (cc : CPUClass) (cpu : CPUState) :
    Bool :=
  match cc.sysemu_ops.virtio_is_big_endian with
  | some op => op cpu
  | none => target_words_bigendian TARGET_BIG_ENDIAN

/-- The function `cpu_get_crash_info`; `none` is `NULL`. -/
def cpu_get_crash_info (cc : CPUClass) (cpu : CPUState) : Option GuestPanicInformation :=
  let res : Option GuestPanicInformation := none
  match cc.sysemu_ops.get_crash_info with
  | some op => op cpu
  | none => res

/-! ## Model selection (`cpu-target.c`, lines 193-218) -/

/-- The loop of GLib's `g_strsplit` for a one-character delimiter: while tokens remain
and the delimiter occurs in the remainder, cut the piece before it. Returns the pieces
cut and the final remainder. -/
def g_strsplit_loop (delimiter : Char) : Nat → List Char → List (List Char) × List Char
  | 0, remainder => ([], remainder)
  | n + 1, remainder =>
    if delimiter ∈ remainder then
      let piece := remainder.takeWhile (fun c => c != delimiter)
      let rest := (remainder.dropWhile (fun c => c != delimiter)).drop 1
      let r := g_strsplit_loop delimiter n rest
      (piece :: r.1, r.2)
    else ([], remainder)

/-- GLib's `g_strsplit(string, delimiter, max_tokens)` for a one-character delimiter and
`max_tokens >= 1`: at most `max_tokens - 1` cuts, then the remainder as the last piece;
the empty string gives the empty vector. -/
def g_strsplit (string : String) (delimiter : Char) (max_tokens : Nat) : List String :=
  let r := g_strsplit_loop delimiter (max_tokens - 1) string.data
  let pieces := if string.data ≠ [] then r.1 ++ [r.2] else r.1
  pieces.map String.mk

/-- How a call ends: it returns a value, or the process exits with a status. -/
inductive Outcome (α : Type) where
  | ret (value : α)
  | exit (status : Nat)
  deriving DecidableEq, Repr

/-- What `parse_cpu_option` does: how it ends, the diagnostics written to the error
stream, and the calls made to `parse_features` (class name, feature string). -/
structure ParseCpuOption where
  outcome : Outcome String
  stderr : List String
  parse_features_calls : List (String × Option String)
  deriving DecidableEq, Repr

/-- The status `EXIT_FAILURE`. -/
def EXIT_FAILURE : Nat := 1

/-- The function `parse_cpu_option`. The class lookup `cpu_class_by_name` for
`CPU_RESOLVING_TYPE` (defined elsewhere in the repository) is a parameter. The feature
parser gets `&error_fatal`: an error it sets is reported and the process exits with
status 1. -/
def parse_cpu_option (cpu_class_by_name : String → Option CPUClass) (cpu_option : String) :
    ParseCpuOption :=
  let model_pieces := g_strsplit cpu_option ',' 2
  match model_pieces.get? 0 with
  | none =>
    { outcome := .exit 1, stderr := ["-cpu option cannot be empty"],
      parse_features_calls := [] }
  | some model =>
    match cpu_class_by_name model with
    | none =>
      { outcome := .exit EXIT_FAILURE,
        stderr := ["unable to find CPU model '" ++ model ++ "'"],
        parse_features_calls := [] }
    | some cc =>
      let cpu_type := cc.name
      match cc.parse_features cpu_type (model_pieces.get? 1) with
      | some err =>
        { outcome := .exit 1, stderr := [err],
          parse_features_calls := [(cpu_type, model_pieces.get? 1)] }
      | none =>
        { outcome := .ret cpu_type, stderr := [],
          parse_features_calls := [(cpu_type, model_pieces.get? 1)] }

/-- The model name as the claim words it: the text before the first comma. -/
def model_name_of (cpu_option : String) : String :=
  String.mk (cpu_option.data.takeWhile (fun c => c != ','))

/-- The feature string as the claim words it: the entire remainder after the first
comma, or absent when there is no comma. -/
def feature_string_of (cpu_option : String) : Option String :=
  if ',' ∈ cpu_option.data then
    some (String.mk ((cpu_option.data.dropWhile (fun c => c != ',')).drop 1))
  else none

/-- Save the source `s` with the common record and load the result into the target `t`,
under one backend setting. -/
def cpu_common_round_trip (tcg_enabled : Bool) (s t : CPUState) : LoadStatus × CPUState :=
  vmstate_load_state tcg_enabled vmstate_cpu_common t
    (vmstate_save_state tcg_enabled vmstate_cpu_common s)

/-- A source state with a pending exception, a crash recorded and the retired interrupt
bit set. -/
def busy_cpu : CPUState :=
  { fresh_cpu 1 with
    halted := 1, interrupt_request := 3, exception_index := 5, crash_occurred := true }

/-- Two instances agree on every field that the subsections of the common record do not
carry, that is on all but `exception_index` and `crash_occurred`. -/
def frame_eq (a b : CPUState) : Prop :=
  a.halted = b.halted ∧ a.interrupt_request = b.interrupt_request ∧
    a.self = b.self ∧ a.cpu_index = b.cpu_index ∧ a.num_ases = b.num_ases ∧
    a.singlestep_enabled = b.singlestep_enabled ∧
    a.start_powered_off = b.start_powered_off ∧
    a.tlb_flush_count = b.tlb_flush_count ∧ a.tb_flush_count = b.tb_flush_count

/-! ## Model names (`cpu-target.c`, lines 178-191) -/

/-- GLib's `g_str_has_suffix(str, suffix)`: false when `str` is shorter than `suffix`,
else whether the tail of `str` of the length of `suffix` equals `suffix`. -/
def g_str_has_suffix (str suffix : String) : Bool :=
  let str_len := str.data.length
  let suffix_len := suffix.data.length
  if str_len < suffix_len then false
  else str.data.drop (str_len - suffix_len) == suffix.data

/-- GLib's `g_strndup(str, n)`: the first `n` characters of `str`. -/
def g_strndup (str : String) (n : Nat) : String :=
  String.mk (str.data.take n)

/-- The function `cpu_model_from_type`; `none` is `NULL`. The class registry lookup
`object_class_by_name` (whether a class of that name exists) and the macro
`CPU_RESOLVING_TYPE` of the target are parameters. -/
def cpu_model_from_type (object_class_by_name : String → Bool) (CPU_RESOLVING_TYPE : String)
    (typename : String) : Option String :=
  let suffix := "-" ++ CPU_RESOLVING_TYPE
  if !object_class_by_name typename then none
  else if g_str_has_suffix typename suffix then
    some (g_strndup typename (typename.data.length - suffix.data.length))
  else some typename

/-! ## Core-dump notes (`hw/core/cpu-system.c`, lines 90-132) -/

/-- The function `cpu_write_elf32_qemunote`. -/
def cpu_write_elf32_qemunote (cc : CPUClass) (f : WriteCoreDumpFunction) (cpu : CPUState)
    (arg : Nat) : Int :=
  match cc.sysemu_ops.write_elf32_qemunote with
  | none => 0
  | some op => op f cpu arg

/-- The function `cpu_write_elf32_note`. -/
def cpu_write_elf32_note (cc : CPUClass) (f : WriteCoreDumpFunction) (cpu : CPUState)
    (cpuid : Int) (arg : Nat) : Int :=
  match cc.sysemu_ops.write_elf32_note with
  | none => -1
  | some op => op f cpu cpuid arg

/-- The function `cpu_write_elf64_qemunote`. -/
def cpu_write_elf64_qemunote (cc : CPUClass) (f : WriteCoreDumpFunction) (cpu : CPUState)
    (arg : Nat) : Int :=
  match cc.sysemu_ops.write_elf64_qemunote with
  | none => 0
  | some op => op f cpu arg

/-- The function `cpu_write_elf64_note`. -/
def cpu_write_elf64_note (cc : CPUClass) (f : WriteCoreDumpFunction) (cpu : CPUState)
    (cpuid : Int) (arg : Nat) : Int :=
  match cc.sysemu_ops.write_elf64_note with
  | none => -1
  | some op => op f cpu cpuid arg

/-! ## Single-step mode (`cpu-target.c`, lines 250-266) -/

/-- The two sinks of `cpu_abort`. -/
inductive Sink where
  | stderr
  | logfile
  deriving DecidableEq, Repr

/-- An effect of `cpu_abort`. `vfprintf` carries the formatted message, `cpu_dump_state`
the instance and the flags, `qemu_log_trylock` whether the sink was acquired. -/
inductive AbortEvent where
  | fprintf (sink : Sink) (text : String)
  | vfprintf (sink : Sink) (message : String)
  | cpu_dump_state (cpu : Nat) (sink : Sink) (flags : Nat)
  | qemu_log_trylock (acquired : Bool)
  | qemu_log_unlock
  | replay_finish
  | sigaction_SIGABRT_default
  | abort
  deriving DecidableEq, Repr

/-- The function `cpu_abort` as the trace of its effects; the last effect is `abort`, so
there is no value to return. Parameters: the build option `CONFIG_USER_ONLY`, the result
of `qemu_log_separate()`, whether `qemu_log_trylock()` answers with a file, the two flag
constants (declared elsewhere in the repository), the instance and the formatted
message (`fmt` with its arguments, the same for `ap` and its copy `ap2`). -/
def cpu_abort (CONFIG_USER_ONLY qemu_log_separate trylock_succeeds : Bool)
    (CPU_DUMP_FPU CPU_DUMP_CCOP : Nat) (cpu : CPUState) (message : String) :
    List AbortEvent :=
  let primary :=
    [AbortEvent.fprintf Sink.stderr "qemu: fatal: ",
     AbortEvent.vfprintf Sink.stderr message,
     AbortEvent.fprintf Sink.stderr "\n",
     AbortEvent.cpu_dump_state cpu.self Sink.stderr (CPU_DUMP_FPU ||| CPU_DUMP_CCOP)]
  let secondary :=
    if qemu_log_separate then
      AbortEvent.qemu_log_trylock trylock_succeeds ::
        (if trylock_succeeds then
          [AbortEvent.fprintf Sink.logfile "qemu: fatal: ",
           AbortEvent.vfprintf Sink.logfile message,
           AbortEvent.fprintf Sink.logfile "\n",
           AbortEvent.cpu_dump_state cpu.self Sink.logfile (CPU_DUMP_FPU ||| CPU_DUMP_CCOP),
           AbortEvent.qemu_log_unlock]
        else [])
    else []
  let user_only :=
    if CONFIG_USER_ONLY then [AbortEvent.sigaction_SIGABRT_default] else []
  primary ++ secondary ++ [AbortEvent.replay_finish] ++ user_only ++ [AbortEvent.abort]

/-- The sink an effect writes to, if it is a write. -/
def AbortEvent.written_sink : AbortEvent → Option Sink
  | .fprintf sink _ => some sink
  | .vfprintf sink _ => some sink
  | .cpu_dump_state _ sink _ => some sink
  | _ => none

/-- The writes of a trace that go to the given sink, in order, with the sink left out:
text written, or a state dump with its flags. -/
def writes_to (sink : Sink) : List AbortEvent → List (String ⊕ Nat)
  | [] => []
  | .fprintf s text :: rest =>
    if s = sink then Sum.inl text :: writes_to sink rest else writes_to sink rest
  | .vfprintf s message :: rest =>
    if s = sink then Sum.inl message :: writes_to sink rest else writes_to sink rest
  | .cpu_dump_state _ s flags :: rest =>
    if s = sink then Sum.inr flags :: writes_to sink rest else writes_to sink rest
  | _ :: rest => writes_to sink rest

/-! ## Reading traces -/

/-- The records registered by the calls of a trace, in order. -/
def registered_records : List Call → List VMStateRef
  | [] => []
  | Call.vmstate_register _ vmsd _ :: rest => vmsd :: registered_records rest
  | _ :: rest => registered_records rest

/-- The records unregistered by the calls of a trace, in order. -/
def unregistered_records : List Call → List VMStateRef
  | [] => []
  | Call.vmstate_unregister vmsd _ :: rest => vmsd :: unregistered_records rest
  | _ :: rest => unregistered_records rest

/-- The positions, counted from `i`, of the effects of a trace that satisfy `p`. -/
def positions_from (p : AbortEvent → Bool) : Nat → List AbortEvent → List Nat
  | _, [] => []
  | i, e :: rest =>
    if p e then i :: positions_from p (i + 1) rest else positions_from p (i + 1) rest

/-- The positions of the effects of a trace that satisfy `p`. -/
def positions (p : AbortEvent → Bool) (trace : List AbortEvent) : List Nat :=
  positions_from p 0 trace

/-- Every effect of the trace that satisfies `p` comes before every one that satisfies
`q`. -/
def all_before (p q : AbortEvent → Bool) (trace : List AbortEvent) : Prop :=
  ∀ i ∈ positions p trace, ∀ j ∈ positions q trace, i < j

/-- The effect is a write to the given sink. -/
def AbortEvent.writes (sink : Sink) (e : AbortEvent) : Bool :=
  e.written_sink == some sink

/-- The effect is a `qemu_log_trylock` that acquired the sink. -/
def AbortEvent.is_acquire : AbortEvent → Bool
  | .qemu_log_trylock true => true
  | _ => false

/-- The effect is a `qemu_log_trylock`, successful or not. -/
def AbortEvent.is_trylock : AbortEvent → Bool
  | .qemu_log_trylock _ => true
  | _ => false

/-- The effect is `qemu_log_unlock`. -/
def AbortEvent.is_unlock : AbortEvent → Bool
  | .qemu_log_unlock => true
  | _ => false

/-- The effect is `replay_finish`. -/
def AbortEvent.is_replay_finish : AbortEvent → Bool
  | .replay_finish => true
  | _ => false

/-- The effect is `abort`. -/
def AbortEvent.is_abort : AbortEvent → Bool
  | .abort => true
  | _ => false

/-! ## Concrete classes, backends and worlds used as inputs -/

/-- A process with no instance registered and no state record. -/
def empty_world : World := { cpus_queue := [], handlers := [], trace := [] }

/-- A process in which instance 3 is registered with index 0 and has the common
record. -/
def one_cpu_world : World :=
  { cpus_queue := [(3, 0)],
    handlers := [{ instance_id := 0, vmsd := VMStateRef.vmstate_cpu_common, owner := 3 }],
    trace := [] }

/-- A backend whose common setup succeeds. -/
def accel_ok : CPUState → Option String := fun _ => none

/-- A backend whose common setup fails. -/
def accel_fails : CPUState → Option String := fun _ => some "accelerator setup failed"

/-- A class with no device-level record and a legacy record in its System Operations
table. -/
def legacy_class : CPUClass :=
  { name := "legacy-cpu", sysemu_ops := { legacy_vmsd := some (VMStateRef.target 1) } }

/-- A class whose device supplies its own record and that has no legacy record. -/
def device_class : CPUClass :=
  { name := "device-cpu", vmsd := some (VMStateRef.target 2) }

/-- The result of realizing instance 7 of `legacy_class` in `one_cpu_world`. -/
def legacy_realized : RealizeResult :=
  { ret := true, errp := none, cpu := { fresh_cpu 7 with cpu_index := 1 },
    world :=
      { cpus_queue := [(3, 0), (7, 1)],
        handlers :=
          [{ instance_id := 0, vmsd := VMStateRef.vmstate_cpu_common, owner := 3 },
           { instance_id := 1, vmsd := VMStateRef.vmstate_cpu_common, owner := 7 },
           { instance_id := 1, vmsd := VMStateRef.target 1, owner := 7 }],
        trace :=
          [Call.accel_cpu_common_realize 7, Call.cpu_list_add 7,
           Call.vmstate_register 1 VMStateRef.vmstate_cpu_common 7,
           Call.vmstate_register 1 (VMStateRef.target 1) 7] } }

/-- A class whose System Operations table leaves every operation unset. -/
def bare_class : CPUClass := { name := "bare-cpu" }

/-- A class that implements only the plain debug translation hook. -/
def plain_class : CPUClass :=
  { name := "plain-cpu",
    sysemu_ops := { get_phys_page_debug := some (fun _ addr => addr + 4096) } }

/-- A class that implements the operations of the System Operations table. -/
def full_class : CPUClass :=
  { name := "full-cpu",
    sysemu_ops :=
      { get_paging_enabled := some (fun cpu => cpu.halted == 0)
        get_memory_mapping := some (fun _ list => (true, (0, 0, 4096) :: list, none))
        get_phys_page_debug := some (fun _ addr => addr + 4096)
        get_phys_page_attrs_debug :=
          some (fun _ addr attrs => (addr + 8192, { attrs with other := 1 }))
        asidx_from_attrs := some (fun _ attrs => if attrs.other = 0 then 0 else 1)
        get_crash_info := some (fun _ => some "guest panicked")
        virtio_is_big_endian := some (fun _ => true) } }

/-- An instance configured with two address spaces. -/
def two_ases_cpu : CPUState := { fresh_cpu 4 with num_ases := 2 }

/-- A class named as the target names its Cortex-A9 model; its feature parser accepts
an absent feature string and any string that holds an equals sign, and reports an error
for any other. -/
def arm_class : CPUClass :=
  { name := "cortex-a9-arm-cpu",
    parse_features := fun _ features =>
      match features with
      | none => none
      | some str =>
        if '=' ∈ str.data then none
        else some ("Expected key=value format, found " ++ str ++ ".") }

/-- A class lookup that knows the single model name "cortex-a9". -/
def arm_class_by_name : String → Option CPUClass :=
  fun model => if model = "cortex-a9" then some arm_class else none

/-- A class registry that knows the single class "cortex-a9-arm-cpu". -/
def arm_registered : String → Bool := fun typename => typename == "cortex-a9-arm-cpu"

/-- A stream at the current version that carries the crash subsection and a subsection
the common record does not declare. -/
def crash_stream : SavedRecord :=
  cpu_common_stream 1 2
    [{ name := "cpu_common/crash_occurred", version := 1, fields := [VMStateValue.bool true] },
     { name := "cpu_common/unknown", version := 1, fields := [] }]

/-- A class that implements the four core-dump note writers. -/
def note_class : CPUClass :=
  { name := "note-cpu",
    sysemu_ops :=
      { write_elf32_note := some (fun f _ cpuid arg => f [arg] + cpuid)
        write_elf64_note := some (fun f _ cpuid arg => f [arg, arg] + cpuid)
        write_elf32_qemunote := some (fun f _ arg => f [arg])
        write_elf64_qemunote := some (fun f _ arg => f [arg, arg]) } }

/-- A write callback that reports the number of bytes it was given. -/
def count_bytes : WriteCoreDumpFunction := fun bytes => bytes.length

theorem land_mask_testBit_zero (x : Nat) : (x &&& 0xFFFFFFFE).testBit 0 = false := by
  rw [Nat.testBit_land]
  have : Nat.testBit 0xFFFFFFFE 0 = false := by decide
  simp [this]

theorem land_mask_eq (x : Nat) (h : x < 2 ^ 32) : x &&& 0xFFFFFFFE = x - x % 2 := by
  apply Nat.eq_of_testBit_eq
  intro i
  rw [Nat.testBit_land]
  cases i with
  | zero =>
    have hm : Nat.testBit 0xFFFFFFFE 0 = false := by decide
    rw [hm, Bool.and_false, Nat.testBit_zero]
    have : (x - x % 2) % 2 ≠ 1 := by omega
    simp [this]
  | succ i =>
    rw [Nat.testBit_succ, Nat.testBit_succ, Nat.testBit_succ]
    have h1 : (x - x % 2) / 2 = x / 2 := by omega
    have h2 : (0xFFFFFFFE : Nat) / 2 = 2 ^ 31 - 1 := by norm_num
    rw [h1, h2, Nat.testBit_two_pow_sub_one]
    by_cases hi : i < 31
    · simp [hi]
    · have hx : x / 2 < 2 ^ i := by
        have : (2 : Nat) ^ 31 ≤ 2 ^ i := Nat.pow_le_pow_right (by norm_num) (by omega)
        omega
      simp [hi, Nat.testBit_lt_two_pow hx]

/-! ## The load of the common record, step by step -/

theorem frame_eq_refl (a : CPUState) : frame_eq a a := by simp [frame_eq]

theorem frame_eq_trans {a b c : CPUState} (h1 : frame_eq a b) (h2 : frame_eq b c) :
    frame_eq a c := by
  obtain ⟨a1, a2, a3, a4, a5, a6, a7, a8, a9⟩ := h1
  obtain ⟨b1, b2, b3, b4, b5, b6, b7, b8, b9⟩ := h2
  exact ⟨a1.trans b1, a2.trans b2, a3.trans b3, a4.trans b4, a5.trans b5, a6.trans b6,
    a7.trans b7, a8.trans b8, a9.trans b9⟩

theorem cpu_common_post_load_fst (tcg : Bool) (cpu : CPUState) (v : Int) :
    (cpu_common_post_load tcg cpu v).1 = 0 := by
  unfold cpu_common_post_load
  split <;> rfl

/-- A load of the common record at the current version is: reset `exception_index`,
store the two fields, load the subsections, run the post-load hook. -/
theorem vmstate_load_cpu_common_eq (tcg : Bool) (cpu : CPUState) (h ir : Nat)
    (subs : List SavedSubsection) :
    vmstate_load_state tcg vmstate_cpu_common cpu (cpu_common_stream h ir subs) =
      match vmstate_subsection_load vmstate_cpu_common.subsections subs
          { cpu with exception_index := -1, halted := h, interrupt_request := ir } with
      | (.ok, c2) => (.ok, (cpu_common_post_load tcg c2 1).2)
      | (err, c2) => (err, c2) := by
  simp [vmstate_load_state, vmstate_cpu_common, cpu_common_stream, cpu_common_pre_load,
    vmstate_load_fields, VMSTATE_UINT32_halted, VMSTATE_UINT32_interrupt_request,
    cpu_common_post_load_fst]

theorem load_fields_exception_index_frame (vs : List VMStateValue) (cpu : CPUState) :
    frame_eq (vmstate_load_fields vmstate_cpu_common_exception_index.fields vs cpu).2 cpu := by
  cases vs with
  | nil => simp [vmstate_load_fields, vmstate_cpu_common_exception_index, frame_eq]
  | cons v vs =>
    cases v <;>
      simp [vmstate_load_fields, vmstate_cpu_common_exception_index,
        VMSTATE_INT32_exception_index, frame_eq]

theorem load_fields_crash_occurred_frame (vs : List VMStateValue) (cpu : CPUState) :
    frame_eq (vmstate_load_fields vmstate_cpu_common_crash_occurred.fields vs cpu).2 cpu := by
  cases vs with
  | nil => simp [vmstate_load_fields, vmstate_cpu_common_crash_occurred, frame_eq]
  | cons v vs =>
    cases v <;>
      simp [vmstate_load_fields, vmstate_cpu_common_crash_occurred,
        VMSTATE_BOOL_crash_occurred, frame_eq]

/-- Loading subsections of the common record, whatever the stream holds, touches only
`exception_index` and `crash_occurred`. -/
theorem vmstate_subsection_load_frame (subs : List SavedSubsection) (cpu : CPUState) :
    frame_eq (vmstate_subsection_load vmstate_cpu_common.subsections subs cpu).2 cpu := by
  induction subs generalizing cpu with
  | nil => simp [vmstate_subsection_load, frame_eq]
  | cons s rest ih =>
    simp only [vmstate_subsection_load]
    split
    · exact ih cpu
    · rename_i d hd
      have hmem := List.mem_of_find?_eq_some hd
      have hf : frame_eq (vmstate_load_fields d.fields s.fields cpu).2 cpu := by
        simp only [vmstate_cpu_common, List.mem_cons, List.mem_singleton, List.not_mem_nil,
          or_false] at hmem
        rcases hmem with h | h
        · rw [h]; exact load_fields_exception_index_frame _ _
        · rw [h]; exact load_fields_crash_occurred_frame _ _
      split
      · exact frame_eq_refl _
      · split
        · rename_i c1 hc
          rw [hc] at hf
          exact hf
        · rename_i c1 hc
          rw [hc] at hf
          exact frame_eq_trans (ih c1) hf

/-! ## Claims on the common state record -/

/-- C1, as the claim states it, fails: with the software-execution backend inactive, a
load of the common record that stores interrupt_request = 1 completes and leaves bit 0
of `interrupt_request` set. -/
theorem c1_bit0_survives_load_without_tcg :
    (vmstate_load_state false vmstate_cpu_common (fresh_cpu 0)
        (cpu_common_stream 0 1 [])).1 = LoadStatus.ok ∧
      (vmstate_load_state false vmstate_cpu_common (fresh_cpu 0)
        (cpu_common_stream 0 1 [])).2.interrupt_request.testBit 0 = true := by
  decide

/-- C1, amended: for every instance, every stored `halted` and `interrupt_request`
value and every list of stored subsections, once the load of the common record
completes, bit 0 of `interrupt_request` is clear when the software-execution backend is
active; when it is not active the post-load hook clears nothing and
`interrupt_request` is the stored value, bit 0 included. -/
theorem c1_loaded_interrupt_request (tcg : Bool) (cpu : CPUState) (halted ir : Nat)
    (subs : List SavedSubsection)
    (hok : (vmstate_load_state tcg vmstate_cpu_common cpu
      (cpu_common_stream halted ir subs)).1 = LoadStatus.ok) :
    (tcg = true →
      (vmstate_load_state tcg vmstate_cpu_common cpu
        (cpu_common_stream halted ir subs)).2.interrupt_request.testBit 0 = false) ∧
    (tcg = false →
      (vmstate_load_state tcg vmstate_cpu_common cpu
        (cpu_common_stream halted ir subs)).2.interrupt_request = ir) := by
  rw [vmstate_load_cpu_common_eq] at hok ⊢
  have hf := vmstate_subsection_load_frame subs
    { cpu with exception_index := -1, halted := halted, interrupt_request := ir }
  revert hok hf
  generalize vmstate_subsection_load vmstate_cpu_common.subsections subs
    { cpu with exception_index := -1, halted := halted, interrupt_request := ir } = r
  obtain ⟨st, c2⟩ := r
  intro hok hf
  cases st <;> simp at hok
  constructor
  · intro ht
    subst ht
    simp only [cpu_common_post_load, if_true, tlb_flush, tb_flush]
    exact land_mask_testBit_zero _
  · intro ht
    subst ht
    simp [cpu_common_post_load]
    exact hf.2.1

/-- C1, amended, at a concrete input: under the software-execution backend the stored
value 1 is loaded with bit 0 clear. -/
theorem c1_loaded_interrupt_request_witness :
    (vmstate_load_state true vmstate_cpu_common (fresh_cpu 0)
        (cpu_common_stream 0 1 [])).1 = LoadStatus.ok ∧
    ((true = true →
      (vmstate_load_state true vmstate_cpu_common (fresh_cpu 0)
        (cpu_common_stream 0 1 [])).2.interrupt_request.testBit 0 = false) ∧
    (true = false →
      (vmstate_load_state true vmstate_cpu_common (fresh_cpu 0)
        (cpu_common_stream 0 1 [])).2.interrupt_request = 1)) :=
  ⟨by decide, c1_loaded_interrupt_request true (fresh_cpu 0) 0 1 [] (by decide)⟩

/-- C2, as the claim states it, fails: with the software-execution backend inactive, a
source with interrupt_request = 3 and exception_index = 5 is saved and loaded into a
fresh instance with interrupt_request = 3 (bit 0 kept, not 2) and exception_index = -1
(not 5). -/
theorem c2_round_trip_fails_without_tcg :
    busy_cpu.interrupt_request = 3 ∧ busy_cpu.exception_index = 5 ∧
    (cpu_common_round_trip false busy_cpu (fresh_cpu 0)).1 = LoadStatus.ok ∧
    (cpu_common_round_trip false busy_cpu (fresh_cpu 0)).2.interrupt_request = 3 ∧
    (cpu_common_round_trip false busy_cpu (fresh_cpu 0)).2.interrupt_request
      ≠ busy_cpu.interrupt_request - busy_cpu.interrupt_request % 2 ∧
    (cpu_common_round_trip false busy_cpu (fresh_cpu 0)).2.exception_index = -1 ∧
    (cpu_common_round_trip false busy_cpu (fresh_cpu 0)).2.exception_index
      ≠ busy_cpu.exception_index := by
  decide

/-- C2, amended: for every source state `s` with a 32-bit `interrupt_request` and every
target instance `t` (a freshly constructed one included), saving `s` and loading the
result into `t` completes and yields `halted = s.halted` and, when `s.crash_occurred`
is true, `crash_occurred = s.crash_occurred`; with the software-execution backend active
it yields `interrupt_request = s.interrupt_request` with bit 0 cleared and
`exception_index = s.exception_index`; with the backend inactive it yields
`interrupt_request = s.interrupt_request` unchanged and `exception_index = -1`. -/
theorem c2_round_trip (tcg : Bool) (s t : CPUState) (hir : s.interrupt_request < 2 ^ 32) :
    (cpu_common_round_trip tcg s t).1 = LoadStatus.ok ∧
    (cpu_common_round_trip tcg s t).2.halted = s.halted ∧
    (s.crash_occurred = true →
      (cpu_common_round_trip tcg s t).2.crash_occurred = s.crash_occurred) ∧
    (tcg = true →
      (cpu_common_round_trip tcg s t).2.interrupt_request =
          s.interrupt_request - s.interrupt_request % 2 ∧
      (cpu_common_round_trip tcg s t).2.exception_index = s.exception_index) ∧
    (tcg = false →
      (cpu_common_round_trip tcg s t).2.interrupt_request = s.interrupt_request ∧
      (cpu_common_round_trip tcg s t).2.exception_index = -1) := by
  have hsave : vmstate_save_state tcg vmstate_cpu_common s =
      cpu_common_stream s.halted s.interrupt_request
        (vmstate_save_state tcg vmstate_cpu_common s).subsections := by
    simp [vmstate_save_state, cpu_common_stream, vmstate_cpu_common, vmstate_save_fields,
      VMSTATE_UINT32_halted, VMSTATE_UINT32_interrupt_request]
  unfold cpu_common_round_trip
  rw [hsave, vmstate_load_cpu_common_eq]
  cases tcg <;> by_cases he : s.exception_index = -1 <;> cases hc : s.crash_occurred <;>
    simp [vmstate_save_state, vmstate_cpu_common, vmstate_save_fields,
      vmstate_cpu_common_exception_index, vmstate_cpu_common_crash_occurred,
      cpu_common_exception_index_needed, cpu_common_crash_occurred_needed,
      vmstate_subsection_load, vmstate_load_fields, VMSTATE_INT32_exception_index,
      VMSTATE_BOOL_crash_occurred, cpu_common_post_load, tlb_flush, tb_flush, he, hc,
      land_mask_eq _ hir]

/-- C2, amended, at a concrete input: the source `busy_cpu` (halted = 1,
interrupt_request = 3, exception_index = 5, crash recorded) saved and loaded into a
fresh instance under the software-execution backend. -/
theorem c2_round_trip_witness :
    busy_cpu.interrupt_request < 2 ^ 32 ∧
    ((cpu_common_round_trip true busy_cpu (fresh_cpu 0)).1 = LoadStatus.ok ∧
    (cpu_common_round_trip true busy_cpu (fresh_cpu 0)).2.halted = busy_cpu.halted ∧
    (busy_cpu.crash_occurred = true →
      (cpu_common_round_trip true busy_cpu (fresh_cpu 0)).2.crash_occurred
        = busy_cpu.crash_occurred) ∧
    (true = true →
      (cpu_common_round_trip true busy_cpu (fresh_cpu 0)).2.interrupt_request =
          busy_cpu.interrupt_request - busy_cpu.interrupt_request % 2 ∧
      (cpu_common_round_trip true busy_cpu (fresh_cpu 0)).2.exception_index
        = busy_cpu.exception_index) ∧
    (true = false →
      (cpu_common_round_trip true busy_cpu (fresh_cpu 0)).2.interrupt_request
        = busy_cpu.interrupt_request ∧
      (cpu_common_round_trip true busy_cpu (fresh_cpu 0)).2.exception_index = -1)) :=
  ⟨by decide, c2_round_trip true busy_cpu (fresh_cpu 0) (by decide)⟩

theorem cpu_list_add_spec (cpu cpu1 : CPUState) (w w1 : World)
    (h : cpu_list_add cpu w = some (cpu1, w1)) :
    cpu1.self = cpu.self ∧ w1.cpus_queue = w.cpus_queue ++ [(cpu.self, cpu1.cpu_index)] ∧
      w1.handlers = w.handlers ∧ w1.trace = w.trace ++ [Call.cpu_list_add cpu.self] := by
  unfold cpu_list_add at h
  split at h
  · simp at h
    obtain ⟨h1, h2⟩ := h
    subst h1 h2
    simp
  · split at h
    · simp at h
    · simp at h
      obtain ⟨h1, h2⟩ := h
      subst h1 h2
      simp

/-- What a successful realize leaves behind: the instance appended to the registry, the
common record when the device supplies none, then the legacy record when it is set. -/
theorem realize_success (accel : CPUState → Option String) (cc : CPUClass) (cpu : CPUState)
    (w : World) (r : RealizeResult) (h : cpu_exec_realizefn accel cc cpu w = some r)
    (hret : r.ret = true) :
    accel cpu = none ∧ r.cpu.self = cpu.self ∧
    r.world.cpus_queue = w.cpus_queue ++ [(cpu.self, r.cpu.cpu_index)] ∧
    r.world.handlers = w.handlers ++
      (if cc.vmsd = none then
        [{ instance_id := r.cpu.cpu_index, vmsd := VMStateRef.vmstate_cpu_common,
           owner := cpu.self }] else []) ++
      (match cc.sysemu_ops.legacy_vmsd with
       | some legacy => [{ instance_id := r.cpu.cpu_index, vmsd := legacy, owner := cpu.self }]
       | none => []) := by
  unfold cpu_exec_realizefn at h
  cases ha : accel cpu with
  | some err =>
    rw [ha] at h
    simp at h
    subst h
    simp at hret
  | none =>
    rw [ha] at h
    simp only at h
    split at h
    · simp at h
    · rename_i cpu1 w1 hadd
      obtain ⟨hs, hq, hh, ht⟩ := cpu_list_add_spec _ _ _ _ hadd
      simp at h
      subst h
      simp at hs hq hh
      refine ⟨rfl, hs, ?_, ?_⟩
      · cases hv : cc.vmsd <;> cases hl : cc.sysemu_ops.legacy_vmsd <;>
          simp [vmstate_register, hq, hs]
      · cases hv : cc.vmsd <;> cases hl : cc.sysemu_ops.legacy_vmsd <;>
          simp [vmstate_register, hh, hs]

theorem filter_queue_eq_self (q : List (Nat × Int)) (o : Nat) (h : ∀ e ∈ q, e.1 ≠ o) :
    q.filter (fun e => e.1 != o) = q := by
  rw [List.filter_eq_self]
  intro e he
  simpa using h e he

/-- C4: for every instance, class and process state: if the backend's common setup
fails with an error, `cpu_exec_realizefn` returns false with that error, the instance
is unchanged (no index assigned), the registry and the persistence set are unchanged
and the only call made is the backend setup; conversely, whenever
`cpu_exec_realizefn` returns false the backend setup failed. -/
theorem c4_realize_failure_registers_nothing (accel : CPUState → Option String)
    (cc : CPUClass) (cpu : CPUState) (w : World) :
    (∀ err, accel cpu = some err →
      cpu_exec_realizefn accel cc cpu w =
        some { ret := false, errp := some err, cpu := cpu,
               world := { cpus_queue := w.cpus_queue, handlers := w.handlers,
                          trace := w.trace ++ [Call.accel_cpu_common_realize cpu.self] } }) ∧
    (∀ r, cpu_exec_realizefn accel cc cpu w = some r → r.ret = false →
      ∃ err, accel cpu = some err) := by
  constructor
  · intro err h
    simp [cpu_exec_realizefn, h]
  · intro r h hret
    unfold cpu_exec_realizefn at h
    cases ha : accel cpu with
    | some err => exact ⟨err, rfl⟩
    | none =>
      rw [ha] at h
      simp only at h
      split at h
      · simp at h
      · simp at h
        subst h
        simp at hret

/-- C4 at a concrete input: instance 7 of `legacy_class` with a failing backend, in a
process where instance 3 is registered. -/
theorem c4_realize_failure_witness :
    accel_fails (fresh_cpu 7) = some "accelerator setup failed" ∧
    cpu_exec_realizefn accel_fails legacy_class (fresh_cpu 7) one_cpu_world =
      some { ret := false, errp := some "accelerator setup failed", cpu := fresh_cpu 7,
             world := { cpus_queue := one_cpu_world.cpus_queue,
                        handlers := one_cpu_world.handlers,
                        trace := one_cpu_world.trace ++
                          [Call.accel_cpu_common_realize (fresh_cpu 7).self] } } :=
  ⟨rfl, (c4_realize_failure_registers_nothing accel_fails legacy_class (fresh_cpu 7)
    one_cpu_world).1 "accelerator setup failed" rfl⟩

/-- C5: for every instance whose `cpu_exec_realizefn` succeeds, that was not in the
registry and had no state record before, and whose device-level record and
`legacy_vmsd` are the same at unrealize as at realize: after `cpu_exec_unrealizefn` the
registry and the set of registered state records are equal to what they were before
realize, the instance is not in the registry, and every record that realize registered
belongs to the instance and is unregistered. -/
theorem c5_unrealize_restores_registry_and_records (accel : CPUState → Option String)
    (cc cc1 : CPUClass) (cpu : CPUState) (w : World) (r : RealizeResult)
    (hreal : cpu_exec_realizefn accel cc cpu w = some r) (hret : r.ret = true)
    (hvmsd : cc1.vmsd = cc.vmsd)
    (hlegacy : cc1.sysemu_ops.legacy_vmsd = cc.sysemu_ops.legacy_vmsd)
    (hnew : ∀ e ∈ w.cpus_queue, e.1 ≠ cpu.self)
    (hnorec : ∀ e ∈ w.handlers, e.owner ≠ cpu.self) :
    (cpu_exec_unrealizefn cc1 r.cpu r.world).cpus_queue = w.cpus_queue ∧
    (cpu_exec_unrealizefn cc1 r.cpu r.world).handlers = w.handlers ∧
    (∀ e ∈ (cpu_exec_unrealizefn cc1 r.cpu r.world).cpus_queue, e.1 ≠ cpu.self) ∧
    (∀ e ∈ r.world.handlers, e ∉ w.handlers → e.owner = cpu.self ∧
      e ∉ (cpu_exec_unrealizefn cc1 r.cpu r.world).handlers) := by
  obtain ⟨_, hs, hq, hh⟩ := realize_success accel cc cpu w r hreal hret
  have hq1 : (cpu_exec_unrealizefn cc1 r.cpu r.world).cpus_queue = w.cpus_queue := by
    simp only [cpu_exec_unrealizefn, cpu_list_remove, hs]
    cases cc1.sysemu_ops.legacy_vmsd <;> cases cc1.vmsd <;>
      simp [vmstate_unregister, hq, List.filter_append, filter_queue_eq_self _ _ hnew]
  have hh1 : (cpu_exec_unrealizefn cc1 r.cpu r.world).handlers = w.handlers := by
    have hn : ∀ (v : VMStateRef), ∀ a ∈ w.handlers, ¬a.vmsd = v ∨ ¬a.owner = cpu.self :=
      fun _ a ha => Or.inr (hnorec a ha)
    simp only [cpu_exec_unrealizefn, cpu_list_remove, hs, hvmsd, hlegacy]
    cases hv : cc.vmsd <;> cases hl : cc.sysemu_ops.legacy_vmsd <;>
      simp [vmstate_unregister, hh, hv, hl, List.filter_append, List.filter_filter] <;>
      first
        | exact hn _
        | (intro a ha; simp [hnorec a ha])
  refine ⟨hq1, hh1, ?_, ?_⟩
  · rw [hq1]; exact hnew
  · intro e he hne
    rw [hh1]
    refine ⟨?_, hne⟩
    rw [hh] at he
    simp only [List.mem_append] at he
    rcases he with (he | he) | he
    · exact absurd he hne
    · split at he <;> simp at he
      rw [he]
    · split at he <;> simp at he
      rw [he]

/-- C5 at a concrete input: instance 7 of `legacy_class`, realized in a process where the
instance 3 is registered (both the common and the legacy record are registered for
instance 7), then unrealized. -/
theorem c5_unrealize_restores_witness :
    cpu_exec_realizefn accel_ok legacy_class (fresh_cpu 7) one_cpu_world
      = some legacy_realized ∧
    legacy_realized.ret = true ∧
    (∀ e ∈ one_cpu_world.cpus_queue, e.1 ≠ (fresh_cpu 7).self) ∧
    (∀ e ∈ one_cpu_world.handlers, e.owner ≠ (fresh_cpu 7).self) ∧
    ((cpu_exec_unrealizefn legacy_class legacy_realized.cpu legacy_realized.world).cpus_queue
      = one_cpu_world.cpus_queue ∧
    (cpu_exec_unrealizefn legacy_class legacy_realized.cpu legacy_realized.world).handlers
      = one_cpu_world.handlers ∧
    (∀ e ∈ (cpu_exec_unrealizefn legacy_class legacy_realized.cpu
        legacy_realized.world).cpus_queue, e.1 ≠ (fresh_cpu 7).self) ∧
    (∀ e ∈ legacy_realized.world.handlers, e ∉ one_cpu_world.handlers →
      e.owner = (fresh_cpu 7).self ∧
      e ∉ (cpu_exec_unrealizefn legacy_class legacy_realized.cpu
        legacy_realized.world).handlers)) :=
  ⟨by decide, by decide, by decide, by decide,
    c5_unrealize_restores_registry_and_records accel_ok legacy_class legacy_class (fresh_cpu 7)
      one_cpu_world legacy_realized (by decide) (by decide) rfl rfl (by decide) (by decide)⟩

/-- C6, as the claim states it, fails: for a class with no device-level record and a
legacy record, realize succeeds and leaves both the common record and the legacy record
registered for the instance. -/
theorem c6_common_and_legacy_both_registered :
    legacy_class.vmsd = none ∧
    legacy_class.sysemu_ops.legacy_vmsd = some (VMStateRef.target 1) ∧
    (cpu_exec_realizefn accel_ok legacy_class (fresh_cpu 7) empty_world).map
        (fun r => (r.ret, r.world.handlers)) =
      some (true,
        [{ instance_id := 0, vmsd := VMStateRef.vmstate_cpu_common, owner := 7 },
         { instance_id := 0, vmsd := VMStateRef.target 1, owner := 7 }]) := by
  decide

/-- C6, amended: for every instance on which `cpu_exec_realizefn` succeeds, the records
it registers for the instance are, in this order and nothing else: the common record
`vmstate_cpu_common` iff the device supplies no record of its own (`qdev_get_vmsd` is
NULL), and the class's `legacy_vmsd` iff it is set. The two tests are independent, so
realize registers none, one or two records: the common record is never registered when
the device supplies a record, and it is registered together with `legacy_vmsd` when the
device supplies none and `legacy_vmsd` is set. -/
theorem c6_records_registered_by_realize (accel : CPUState → Option String) (cc : CPUClass)
    (cpu : CPUState) (w : World) (r : RealizeResult)
    (hreal : cpu_exec_realizefn accel cc cpu w = some r) (hret : r.ret = true) :
    r.world.handlers = w.handlers ++
      (if cc.vmsd = none then
        [{ instance_id := r.cpu.cpu_index, vmsd := VMStateRef.vmstate_cpu_common,
           owner := cpu.self }] else []) ++
      (match cc.sysemu_ops.legacy_vmsd with
       | some legacy => [{ instance_id := r.cpu.cpu_index, vmsd := legacy, owner := cpu.self }]
       | none => []) :=
  (realize_success accel cc cpu w r hreal hret).2.2.2

/-- C6, amended, at a concrete input: instance 9 of `device_class`, whose device
supplies its own record, realized in `one_cpu_world`: realize registers no record. -/
theorem c6_records_registered_witness :
    cpu_exec_realizefn accel_ok device_class (fresh_cpu 9) one_cpu_world =
      some { ret := true, errp := none, cpu := { fresh_cpu 9 with cpu_index := 1 },
             world := { cpus_queue := [(3, 0), (9, 1)], handlers := one_cpu_world.handlers,
                        trace := [Call.accel_cpu_common_realize 9, Call.cpu_list_add 9] } } ∧
    one_cpu_world.handlers = one_cpu_world.handlers ++
      (if device_class.vmsd = none then
        [{ instance_id := 1, vmsd := VMStateRef.vmstate_cpu_common,
           owner := (fresh_cpu 9).self }] else []) ++
      (match device_class.sysemu_ops.legacy_vmsd with
       | some legacy => [{ instance_id := 1, vmsd := legacy, owner := (fresh_cpu 9).self }]
       | none => []) :=
  ⟨by decide,
    c6_records_registered_by_realize accel_ok device_class (fresh_cpu 9) one_cpu_world
      { ret := true, errp := none, cpu := { fresh_cpu 9 with cpu_index := 1 },
        world := { cpus_queue := [(3, 0), (9, 1)], handlers := one_cpu_world.handlers,
                   trace := [Call.accel_cpu_common_realize 9, Call.cpu_list_add 9] } }
      (by decide) rfl⟩

/-! ## Capability dispatch -/

/-- C7, as the claim states it, fails: with no resolver registered and an instance whose
address-space count is 0, `cpu_asidx_from_attrs` returns 0 unchecked, and 0 is not below
`num_ases`. -/
theorem c7_default_index_not_validated :
    bare_class.sysemu_ops.asidx_from_attrs.isNone = true ∧
    (fresh_cpu 0).num_ases = 0 ∧
    cpu_asidx_from_attrs bare_class (fresh_cpu 0) MemTxAttrs.zero = some 0 ∧
    ¬ ((0 : Int) < (fresh_cpu 0).num_ases) := by
  decide

/-- C7, amended: for every instance and every attrs value, when the class registers a
resolver, `cpu_asidx_from_attrs` returns `r` only with `0 <= r < num_ases` and `r` the
resolver's value, it does return the resolver's value when that is in range, and an
out-of-range value is a fatal assertion failure; when no resolver is registered it
returns 0 with no validation, and that 0 lies in `[0, num_ases)` iff `num_ases >= 1`. -/
theorem c7_asidx_in_range (cc : CPUClass) (cpu : CPUState) (attrs : MemTxAttrs) :
    (∀ op, cc.sysemu_ops.asidx_from_attrs = some op →
      (∀ r, cpu_asidx_from_attrs cc cpu attrs = some r →
        0 ≤ r ∧ r < cpu.num_ases ∧ r = op cpu attrs) ∧
      (0 ≤ op cpu attrs ∧ op cpu attrs < cpu.num_ases →
        cpu_asidx_from_attrs cc cpu attrs = some (op cpu attrs)) ∧
      (¬ (0 ≤ op cpu attrs ∧ op cpu attrs < cpu.num_ases) →
        cpu_asidx_from_attrs cc cpu attrs = none)) ∧
    (cc.sysemu_ops.asidx_from_attrs = none →
      cpu_asidx_from_attrs cc cpu attrs = some 0 ∧
      ((0 ≤ (0 : Int) ∧ (0 : Int) < cpu.num_ases) ↔ 1 ≤ cpu.num_ases)) := by
  constructor
  · intro op hop
    simp only [cpu_asidx_from_attrs, hop]
    refine ⟨?_, ?_, ?_⟩
    · intro r hr
      split at hr
      · rename_i hc
        simp at hr
        subst hr
        exact ⟨hc.2, hc.1, rfl⟩
      · simp at hr
    · intro h
      simp [h.1, h.2]
    · intro h
      rw [if_neg]
      intro hc
      exact h ⟨hc.2, hc.1⟩
  · intro hnone
    exact ⟨by simp [cpu_asidx_from_attrs, hnone], by omega⟩

/-- C7, amended, at concrete inputs: on an instance with two address spaces the
resolver of `full_class` gives index 1, and a class without resolver gives index 0. -/
theorem c7_asidx_in_range_witness :
    full_class.sysemu_ops.asidx_from_attrs.isSome = true ∧
    cpu_asidx_from_attrs full_class two_ases_cpu { MemTxAttrs.zero with other := 5 }
      = some 1 ∧
    cpu_asidx_from_attrs bare_class two_ases_cpu MemTxAttrs.zero = some 0 :=
  ⟨rfl,
   ((c7_asidx_in_range full_class two_ases_cpu { MemTxAttrs.zero with other := 5 }).1
      (fun _ attrs => if attrs.other = 0 then 0 else 1) rfl).2.1 (by decide),
   ((c7_asidx_in_range bare_class two_ases_cpu MemTxAttrs.zero).2 rfl).1⟩

/-- C8: for every class, instance and mapping list: when the operation is unset,
`cpu_paging_enabled` returns false, `cpu_get_memory_mapping` returns false with the
error "Obtaining memory mappings is unsupported on this CPU." and the list untouched,
`cpu_virtio_is_big_endian` returns `target_words_bigendian()`, and `cpu_get_crash_info`
returns NULL, whatever the other entries of the table are; when the operation is set,
each dispatcher returns exactly what the operation returns. -/
theorem c8_dispatch_defaults (big : Bool) (cc : CPUClass) (cpu : CPUState)
    (list : MemoryMappingList) :
    (cc.sysemu_ops.get_paging_enabled = none → cpu_paging_enabled cc cpu = false) ∧
    (cc.sysemu_ops.get_memory_mapping = none →
      cpu_get_memory_mapping cc cpu list =
        (false, list, some "Obtaining memory mappings is unsupported on this CPU.")) ∧
    (cc.sysemu_ops.virtio_is_big_endian = none →
      cpu_virtio_is_big_endian big cc cpu = target_words_bigendian big) ∧
    (cc.sysemu_ops.get_crash_info = none → cpu_get_crash_info cc cpu = none) ∧
    (∀ op, cc.sysemu_ops.get_paging_enabled = some op → cpu_paging_enabled cc cpu = op cpu) ∧
    (∀ op, cc.sysemu_ops.get_memory_mapping = some op →
      cpu_get_memory_mapping cc cpu list = op cpu list) ∧
    (∀ op, cc.sysemu_ops.virtio_is_big_endian = some op →
      cpu_virtio_is_big_endian big cc cpu = op cpu) ∧
    (∀ op, cc.sysemu_ops.get_crash_info = some op → cpu_get_crash_info cc cpu = op cpu) := by
  refine ⟨?_, ?_, ?_, ?_, ?_, ?_, ?_, ?_⟩ <;> intros <;>
    simp_all [cpu_paging_enabled, cpu_get_memory_mapping, cpu_virtio_is_big_endian,
      cpu_get_crash_info]

/-- C8 at concrete inputs: the four defaults on `bare_class` for a big-endian target,
and the paging query of `full_class`. -/
theorem c8_dispatch_defaults_witness :
    cpu_paging_enabled bare_class (fresh_cpu 0) = false ∧
    cpu_get_memory_mapping bare_class (fresh_cpu 0) [(1, 2, 3)] =
      (false, [(1, 2, 3)], some "Obtaining memory mappings is unsupported on this CPU.") ∧
    cpu_virtio_is_big_endian true bare_class (fresh_cpu 0) = target_words_bigendian true ∧
    cpu_get_crash_info bare_class (fresh_cpu 0) = none ∧
    cpu_paging_enabled full_class (fresh_cpu 0) = ((fresh_cpu 0).halted == 0) :=
  ⟨(c8_dispatch_defaults true bare_class (fresh_cpu 0) [(1, 2, 3)]).1 rfl,
   (c8_dispatch_defaults true bare_class (fresh_cpu 0) [(1, 2, 3)]).2.1 rfl,
   (c8_dispatch_defaults true bare_class (fresh_cpu 0) [(1, 2, 3)]).2.2.1 rfl,
   (c8_dispatch_defaults true bare_class (fresh_cpu 0) [(1, 2, 3)]).2.2.2.1 rfl,
   (c8_dispatch_defaults true full_class (fresh_cpu 0) []).2.2.2.2.1
     (fun cpu => cpu.halted == 0) rfl⟩

/-- C9: for every class, instance, virtual address and incoming attrs:
`cpu_get_phys_page_attrs_debug` returns the address of the attribute-aware hook when it
is set, and the attrs that hook wrote with `debug` set to 1; otherwise, with the plain
hook set, it returns the address of `get_phys_page_debug` and writes back
`MEMTXATTRS_UNSPECIFIED` with `debug` set to 1, whatever the incoming attrs; every
result has `debug = 1`; and `cpu_get_phys_page_debug` returns the address that
`cpu_get_phys_page_attrs_debug` returns for zero-initialised attrs. -/
theorem c9_phys_page_debug (cc : CPUClass) (cpu : CPUState) (addr : Nat)
    (attrs : MemTxAttrs) :
    (∀ op, cc.sysemu_ops.get_phys_page_attrs_debug = some op →
      cpu_get_phys_page_attrs_debug cc cpu addr attrs =
        some ((op cpu addr attrs).1, { (op cpu addr attrs).2 with debug := true })) ∧
    (∀ op, cc.sysemu_ops.get_phys_page_attrs_debug = none →
      cc.sysemu_ops.get_phys_page_debug = some op →
      cpu_get_phys_page_attrs_debug cc cpu addr attrs =
        some (op cpu addr, { MEMTXATTRS_UNSPECIFIED with debug := true })) ∧
    (∀ r, cpu_get_phys_page_attrs_debug cc cpu addr attrs = some r → r.2.debug = true) ∧
    cpu_get_phys_page_debug cc cpu addr =
      (cpu_get_phys_page_attrs_debug cc cpu addr MemTxAttrs.zero).map (fun r => r.1) := by
  refine ⟨?_, ?_, ?_, rfl⟩
  · intro op h
    simp [cpu_get_phys_page_attrs_debug, h]
  · intro op h1 h2
    simp [cpu_get_phys_page_attrs_debug, h1, h2]
  · intro r h
    unfold cpu_get_phys_page_attrs_debug at h
    split at h
    · simp at h
      rw [← h]
    · split at h
      · simp at h
      · simp at h
        rw [← h]

/-- C9 at concrete inputs: the fallback of `plain_class` discards the incoming attrs,
and the attribute-aware hook of `full_class` keeps what it wrote, both with `debug`
set. -/
theorem c9_phys_page_debug_witness :
    cpu_get_phys_page_attrs_debug plain_class (fresh_cpu 0) 16
        { unspecified := false, debug := false, other := 9 } =
      some (16 + 4096, { unspecified := true, debug := true, other := 0 }) ∧
    cpu_get_phys_page_attrs_debug full_class (fresh_cpu 0) 16
        { unspecified := false, debug := false, other := 9 } =
      some (16 + 8192, { unspecified := false, debug := true, other := 1 }) :=
  ⟨(c9_phys_page_debug plain_class (fresh_cpu 0) 16
      { unspecified := false, debug := false, other := 9 }).2.1
      (fun _ addr => addr + 4096) rfl rfl,
   (c9_phys_page_debug full_class (fresh_cpu 0) 16
      { unspecified := false, debug := false, other := 9 }).1
      (fun _ addr attrs => (addr + 8192, { attrs with other := 1 })) rfl⟩

/-! ## Model selection -/

theorem takeWhile_no_delim (l : List Char) (d : Char) (h : d ∉ l) :
    l.takeWhile (fun c => c != d) = l := by
  rw [List.takeWhile_eq_self_iff]
  intro c hc
  simp only [bne_iff_ne, ne_eq]
  intro hcd
  exact h (hcd ▸ hc)

/-- The pieces `g_strsplit` returns for the delimiter "," and at most two tokens. -/
theorem g_strsplit_two (s : String) :
    g_strsplit s ',' 2 =
      if s.data = [] then []
      else if ',' ∈ s.data then
        [model_name_of s, String.mk ((s.data.dropWhile (fun c => c != ',')).drop 1)]
      else [model_name_of s] := by
  unfold g_strsplit model_name_of
  by_cases he : s.data = []
  · simp [he, g_strsplit_loop]
  · by_cases hc : ',' ∈ s.data
    · simp [he, hc, g_strsplit_loop]
    · simp [he, hc, g_strsplit_loop, takeWhile_no_delim _ _ hc]

theorem g_strsplit_get0 (s : String) :
    (g_strsplit s ',' 2).get? 0 = if s = "" then none else some (model_name_of s) := by
  rw [g_strsplit_two]
  have : s = "" ↔ s.data = [] := by
    constructor
    · intro h; rw [h]
    · intro h; exact String.ext h
  by_cases he : s.data = []
  · simp [he, this.2 he]
  · have hne : s ≠ "" := fun h => he (this.1 h)
    by_cases hc : ',' ∈ s.data <;> simp [he, hc, hne]

theorem g_strsplit_get1 (s : String) :
    (g_strsplit s ',' 2).get? 1 = feature_string_of s := by
  rw [g_strsplit_two]
  unfold feature_string_of
  by_cases he : s.data = []
  · simp [he]
  · by_cases hc : ',' ∈ s.data <;> simp [he, hc]

/-- The function `parse_cpu_option` in terms of the text before the first comma and the
remainder after it. -/
theorem parse_cpu_option_eq (cpu_class_by_name : String → Option CPUClass) (s : String) :
    parse_cpu_option cpu_class_by_name s =
      if s = "" then
        { outcome := .exit 1, stderr := ["-cpu option cannot be empty"],
          parse_features_calls := [] }
      else
        match cpu_class_by_name (model_name_of s) with
        | none =>
          { outcome := .exit EXIT_FAILURE,
            stderr := ["unable to find CPU model '" ++ model_name_of s ++ "'"],
            parse_features_calls := [] }
        | some cc =>
          match cc.parse_features cc.name (feature_string_of s) with
          | some err =>
            { outcome := .exit 1, stderr := [err],
              parse_features_calls := [(cc.name, feature_string_of s)] }
          | none =>
            { outcome := .ret cc.name, stderr := [],
              parse_features_calls := [(cc.name, feature_string_of s)] } := by
  simp only [parse_cpu_option, g_strsplit_get0, g_strsplit_get1]
  by_cases h : s = ""
  · simp only [h, if_true]
  · simp only [h, if_false]

/-- C10, as the claim states it, fails: for "cortex-a9,bogus" the model name resolves
and the feature string "bogus" is forwarded, but the feature parser reports an error
through `&error_fatal` and the process exits with status 1 instead of returning the
class name. -/
theorem c10_feature_error_exits :
    ("cortex-a9,bogus" : String) ≠ "" ∧
    (arm_class_by_name (model_name_of "cortex-a9,bogus")).isSome = true ∧
    parse_cpu_option arm_class_by_name "cortex-a9,bogus" =
      { outcome := .exit 1, stderr := ["Expected key=value format, found bogus."],
        parse_features_calls := [("cortex-a9-arm-cpu", some "bogus")] } ∧
    (parse_cpu_option arm_class_by_name "cortex-a9,bogus").outcome
      ≠ .ret "cortex-a9-arm-cpu" := by
  decide

/-- C10, amended: for every selection string `s` and class lookup: if `s` is empty the
process exits with status 1 after the diagnostic "-cpu option cannot be empty" and
`parse_features` is not called; otherwise the model name is the text before the first
comma, and if it resolves to no class the process exits with `EXIT_FAILURE` after a
diagnostic naming it and `parse_features` is not called; if it resolves to a class,
`parse_features` of that class is called exactly once with the fully qualified class
name and the entire remainder after the first comma (absent when `s` has no comma),
and the function returns the fully qualified class name when `parse_features` reports
no error, while an error it reports ends the process with status 1. -/
theorem c10_parse_cpu_option (cpu_class_by_name : String → Option CPUClass) (s : String) :
    (s = "" →
      parse_cpu_option cpu_class_by_name s =
        { outcome := .exit 1, stderr := ["-cpu option cannot be empty"],
          parse_features_calls := [] }) ∧
    (s ≠ "" → cpu_class_by_name (model_name_of s) = none →
      parse_cpu_option cpu_class_by_name s =
        { outcome := .exit EXIT_FAILURE,
          stderr := ["unable to find CPU model '" ++ model_name_of s ++ "'"],
          parse_features_calls := [] }) ∧
    (∀ cc, s ≠ "" → cpu_class_by_name (model_name_of s) = some cc →
      (parse_cpu_option cpu_class_by_name s).parse_features_calls
        = [(cc.name, feature_string_of s)] ∧
      (cc.parse_features cc.name (feature_string_of s) = none →
        parse_cpu_option cpu_class_by_name s =
          { outcome := .ret cc.name, stderr := [],
            parse_features_calls := [(cc.name, feature_string_of s)] }) ∧
      (∀ err, cc.parse_features cc.name (feature_string_of s) = some err →
        parse_cpu_option cpu_class_by_name s =
          { outcome := .exit 1, stderr := [err],
            parse_features_calls := [(cc.name, feature_string_of s)] })) := by
  rw [parse_cpu_option_eq]
  refine ⟨?_, ?_, ?_⟩
  · intro h
    simp [h]
  · intro h hn
    simp [h, hn]
  · intro cc h hc
    refine ⟨?_, ?_, ?_⟩
    · simp only [h, hc, if_false]
      split <;> rfl
    · intro hp
      simp [h, hc, hp]
    · intro err hp
      simp [h, hc, hp]

/-- C10, amended, at the inputs of the scenario: "cortex-a9,pmu=off" returns the fully
qualified class name and forwards "pmu=off"; "not-a-real-cpu" exits with a non-zero
status and a diagnostic naming that string. -/
theorem c10_parse_cpu_option_witness :
    feature_string_of "cortex-a9,pmu=off" = some "pmu=off" ∧
    parse_cpu_option arm_class_by_name "cortex-a9,pmu=off" =
      { outcome := .ret arm_class.name, stderr := [],
        parse_features_calls := [(arm_class.name, feature_string_of "cortex-a9,pmu=off")] } ∧
    model_name_of "not-a-real-cpu" = "not-a-real-cpu" ∧
    parse_cpu_option arm_class_by_name "not-a-real-cpu" =
      { outcome := .exit EXIT_FAILURE,
        stderr := ["unable to find CPU model '" ++ model_name_of "not-a-real-cpu" ++ "'"],
        parse_features_calls := [] } :=
  ⟨by decide,
   ((c10_parse_cpu_option arm_class_by_name "cortex-a9,pmu=off").2.2 arm_class
      (by decide) rfl).2.1 rfl,
   by decide,
   (c10_parse_cpu_option arm_class_by_name "not-a-real-cpu").2.1 (by decide) rfl⟩

/-! ## Model names -/

theorem string_append_data (a b : String) : (a ++ b).data = a.data ++ b.data := by
  simp

/-- GLib's suffix test holds exactly when the string is some text followed by the
suffix. -/
theorem g_str_has_suffix_iff (str suffix : String) :
    g_str_has_suffix str suffix = true ↔ ∃ m : String, str = m ++ suffix := by
  unfold g_str_has_suffix
  constructor
  · intro h
    by_cases hl : str.data.length < suffix.data.length
    · simp only [hl, if_true] at h
      exact absurd h (by decide)
    · simp only [hl, if_false, beq_iff_eq] at h
      refine ⟨String.mk (str.data.take (str.data.length - suffix.data.length)), ?_⟩
      apply String.ext
      have h2 := List.take_append_drop (str.data.length - suffix.data.length) str.data
      rw [h] at h2
      rw [string_append_data]
      exact h2.symm
  · rintro ⟨m, rfl⟩
    simp [string_append_data]

theorem g_strndup_append (m suffix : String) :
    g_strndup (m ++ suffix) ((m ++ suffix).data.length - suffix.data.length) = m := by
  unfold g_strndup
  apply String.ext
  simp [string_append_data]

/-- C11: for every class registry, resolving type and type name `t`:
`cpu_model_from_type(t)` is NULL iff `t` is not a registered class name; if `t` is
registered and is `m` followed by "-" and `CPU_RESOLVING_TYPE`, the result is `m`, that
is `t` with exactly that suffix removed; if `t` is registered and does not end with
that suffix, the result is `t` unchanged. -/
theorem c11_cpu_model_from_type (object_class_by_name : String → Bool)
    (CPU_RESOLVING_TYPE t : String) :
    (cpu_model_from_type object_class_by_name CPU_RESOLVING_TYPE t = none ↔
      object_class_by_name t = false) ∧
    (∀ m : String, object_class_by_name t = true → t = m ++ "-" ++ CPU_RESOLVING_TYPE →
      cpu_model_from_type object_class_by_name CPU_RESOLVING_TYPE t = some m) ∧
    (object_class_by_name t = true → (¬ ∃ m : String, t = m ++ "-" ++ CPU_RESOLVING_TYPE) →
      cpu_model_from_type object_class_by_name CPU_RESOLVING_TYPE t = some t) := by
  refine ⟨?_, ?_, ?_⟩
  · unfold cpu_model_from_type
    cases hr : object_class_by_name t
    · simp
    · simp only [Bool.not_true, Bool.false_eq_true, if_false]
      split <;> simp
  · intro m hr ht
    have ht2 : t = m ++ ("-" ++ CPU_RESOLVING_TYPE) := by rw [ht, String.append_assoc]
    have hs : g_str_has_suffix t ("-" ++ CPU_RESOLVING_TYPE) = true :=
      (g_str_has_suffix_iff _ _).2 ⟨m, ht2⟩
    simp only [cpu_model_from_type, hr, hs, Bool.not_true, Bool.false_eq_true, if_false,
      if_true]
    rw [ht2, g_strndup_append]
  · intro hr hn
    have hs : g_str_has_suffix t ("-" ++ CPU_RESOLVING_TYPE) = false := by
      cases h : g_str_has_suffix t ("-" ++ CPU_RESOLVING_TYPE)
      · rfl
      · obtain ⟨m, hm⟩ := (g_str_has_suffix_iff _ _).1 h
        exact absurd ⟨m, by rw [hm, String.append_assoc]⟩ hn
    simp [cpu_model_from_type, hr, hs]

/-- C11 at the input of the scenario, for the resolving type "arm-cpu": the registered
class "cortex-a9-arm-cpu" gives "cortex-a9", and the unregistered name "cortex-a9" gives
NULL. -/
theorem c11_cpu_model_from_type_witness :
    arm_registered "cortex-a9-arm-cpu" = true ∧
    cpu_model_from_type arm_registered "arm-cpu" "cortex-a9-arm-cpu" = some "cortex-a9" ∧
    cpu_model_from_type arm_registered "arm-cpu" "cortex-a9" = none :=
  ⟨by decide,
   (c11_cpu_model_from_type arm_registered "arm-cpu" "cortex-a9-arm-cpu").2.1 "cortex-a9"
     (by decide) (by decide),
   (c11_cpu_model_from_type arm_registered "arm-cpu" "cortex-a9").1.2 (by decide)⟩

/-! ## Order of effects in realize and unrealize -/

/-- The calls of a successful realize, in order. -/
theorem realize_trace (accel : CPUState → Option String) (cc : CPUClass) (cpu : CPUState)
    (w : World) (r : RealizeResult) (h : cpu_exec_realizefn accel cc cpu w = some r)
    (hret : r.ret = true) :
    r.world.trace = w.trace ++
      [Call.accel_cpu_common_realize cpu.self, Call.cpu_list_add cpu.self] ++
      (if cc.vmsd = none then
        [Call.vmstate_register r.cpu.cpu_index VMStateRef.vmstate_cpu_common cpu.self]
       else []) ++
      (match cc.sysemu_ops.legacy_vmsd with
       | some legacy => [Call.vmstate_register r.cpu.cpu_index legacy cpu.self]
       | none => []) := by
  unfold cpu_exec_realizefn at h
  cases ha : accel cpu with
  | some err =>
    rw [ha] at h
    simp at h
    subst h
    simp at hret
  | none =>
    rw [ha] at h
    simp only at h
    split at h
    · simp at h
    · rename_i cpu1 w1 hadd
      obtain ⟨hs, hq, hh, ht⟩ := cpu_list_add_spec _ _ _ _ hadd
      simp at h
      subst h
      simp at hs ht
      cases hv : cc.vmsd <;> cases hl : cc.sysemu_ops.legacy_vmsd <;>
        simp [vmstate_register, ht, hs]

/-- The calls of unrealize, in order. -/
theorem unrealize_trace (cc : CPUClass) (cpu : CPUState) (w : World) :
    (cpu_exec_unrealizefn cc cpu w).trace = w.trace ++
      (match cc.sysemu_ops.legacy_vmsd with
       | some legacy => [Call.vmstate_unregister legacy cpu.self]
       | none => []) ++
      (if cc.vmsd = none then
        [Call.vmstate_unregister VMStateRef.vmstate_cpu_common cpu.self] else []) ++
      [Call.cpu_list_remove cpu.self, Call.accel_cpu_common_unrealize cpu.self] := by
  cases hv : cc.vmsd <;> cases hl : cc.sysemu_ops.legacy_vmsd <;>
    simp [cpu_exec_unrealizefn, cpu_list_remove, vmstate_unregister, hv, hl]

/-- C12: in every execution of `cpu_exec_unrealizefn` the calls are, in this order: the
unregistration of `legacy_vmsd` when it is set, the unregistration of
`vmstate_cpu_common` when the device supplies no record, `cpu_list_remove`, and last
`accel_cpu_common_unrealize`; when the backend teardown is reached the instance is not
in the registry and none of the records that unrealize handles is registered for it;
and after a successful realize of the same class the records are unregistered in the
reverse of the order in which realize registered them. -/
theorem c12_unrealize_order (cc : CPUClass) (cpu : CPUState) (w : World) :
    ((cpu_exec_unrealizefn cc cpu w).trace = w.trace ++
      (match cc.sysemu_ops.legacy_vmsd with
       | some legacy => [Call.vmstate_unregister legacy cpu.self]
       | none => []) ++
      (if cc.vmsd = none then
        [Call.vmstate_unregister VMStateRef.vmstate_cpu_common cpu.self] else []) ++
      [Call.cpu_list_remove cpu.self, Call.accel_cpu_common_unrealize cpu.self]) ∧
    (∀ e ∈ (cpu_exec_unrealizefn cc cpu w).cpus_queue, e.1 ≠ cpu.self) ∧
    (∀ e ∈ (cpu_exec_unrealizefn cc cpu w).handlers, e.owner = cpu.self →
      (cc.vmsd = none → e.vmsd ≠ VMStateRef.vmstate_cpu_common) ∧
      cc.sysemu_ops.legacy_vmsd ≠ some e.vmsd) ∧
    (∀ (accel : CPUState → Option String) (cpu0 : CPUState) (w0 : World) (r : RealizeResult),
      cpu_exec_realizefn accel cc cpu0 w0 = some r → r.ret = true →
      unregistered_records
          ((cpu_exec_unrealizefn cc r.cpu r.world).trace.drop r.world.trace.length) =
        (registered_records (r.world.trace.drop w0.trace.length)).reverse) := by
  refine ⟨unrealize_trace cc cpu w, ?_, ?_, ?_⟩
  · intro e he
    cases hv : cc.vmsd <;> cases hl : cc.sysemu_ops.legacy_vmsd <;>
      simp [cpu_exec_unrealizefn, cpu_list_remove, vmstate_unregister, hv, hl] at he <;>
      exact he.2
  · intro e he ho
    cases hv : cc.vmsd <;> cases hl : cc.sysemu_ops.legacy_vmsd <;>
      simp [cpu_exec_unrealizefn, cpu_list_remove, vmstate_unregister, hv, hl,
        List.mem_filter] at he ⊢ <;>
      simp only [ho, not_true_eq_false, or_false] at he <;>
      first
        | exact he.2
        | exact ⟨he.2.1, fun h => he.2.2 h.symm⟩
        | exact fun h => he.2 h.symm
  · intro accel cpu0 w0 r hreal hret
    rw [unrealize_trace, realize_trace accel cc cpu0 w0 r hreal hret]
    cases hv : cc.vmsd <;> cases hl : cc.sysemu_ops.legacy_vmsd <;>
      simp [registered_records, unregistered_records, List.append_assoc]

/-- C12 at a concrete input: instance 7 of `legacy_class`, realized in `one_cpu_world`
(common record, then legacy record) and unrealized (legacy record, then common record,
then `cpu_list_remove`, then the backend teardown). -/
theorem c12_unrealize_order_witness :
    (cpu_exec_unrealizefn legacy_class legacy_realized.cpu legacy_realized.world).trace =
      legacy_realized.world.trace ++
        [Call.vmstate_unregister (VMStateRef.target 1) 7,
         Call.vmstate_unregister VMStateRef.vmstate_cpu_common 7,
         Call.cpu_list_remove 7, Call.accel_cpu_common_unrealize 7] ∧
    registered_records (legacy_realized.world.trace.drop one_cpu_world.trace.length) =
      [VMStateRef.vmstate_cpu_common, VMStateRef.target 1] ∧
    unregistered_records
        ((cpu_exec_unrealizefn legacy_class legacy_realized.cpu
          legacy_realized.world).trace.drop legacy_realized.world.trace.length) =
      (registered_records
        (legacy_realized.world.trace.drop one_cpu_world.trace.length)).reverse :=
  ⟨(c12_unrealize_order legacy_class legacy_realized.cpu legacy_realized.world).1,
   by decide,
   (c12_unrealize_order legacy_class legacy_realized.cpu legacy_realized.world).2.2.2
     accel_ok (fresh_cpu 7) one_cpu_world legacy_realized (by decide) (by decide)⟩

/-! ## Core-dump notes -/

/-- C13: for both word widths, when the writer is unset the QEMU-note dispatcher returns
0 and the CPU-note dispatcher returns -1, a negative value, whatever the write callback
and the other arguments are; when the writer is set, the dispatcher returns exactly the
writer's result for the same arguments. -/
theorem c13_note_writer_defaults (cc : CPUClass) (f : WriteCoreDumpFunction)
    (cpu : CPUState) (cpuid : Int) (arg : Nat) :
    (cc.sysemu_ops.write_elf32_qemunote = none → cpu_write_elf32_qemunote cc f cpu arg = 0) ∧
    (cc.sysemu_ops.write_elf64_qemunote = none → cpu_write_elf64_qemunote cc f cpu arg = 0) ∧
    (cc.sysemu_ops.write_elf32_note = none →
      cpu_write_elf32_note cc f cpu cpuid arg = -1 ∧
      cpu_write_elf32_note cc f cpu cpuid arg < 0) ∧
    (cc.sysemu_ops.write_elf64_note = none →
      cpu_write_elf64_note cc f cpu cpuid arg = -1 ∧
      cpu_write_elf64_note cc f cpu cpuid arg < 0) ∧
    (∀ op, cc.sysemu_ops.write_elf32_qemunote = some op →
      cpu_write_elf32_qemunote cc f cpu arg = op f cpu arg) ∧
    (∀ op, cc.sysemu_ops.write_elf64_qemunote = some op →
      cpu_write_elf64_qemunote cc f cpu arg = op f cpu arg) ∧
    (∀ op, cc.sysemu_ops.write_elf32_note = some op →
      cpu_write_elf32_note cc f cpu cpuid arg = op f cpu cpuid arg) ∧
    (∀ op, cc.sysemu_ops.write_elf64_note = some op →
      cpu_write_elf64_note cc f cpu cpuid arg = op f cpu cpuid arg) := by
  refine ⟨?_, ?_, ?_, ?_, ?_, ?_, ?_, ?_⟩ <;> intros <;>
    simp_all [cpu_write_elf32_qemunote, cpu_write_elf64_qemunote, cpu_write_elf32_note,
      cpu_write_elf64_note]

/-- C13 at concrete inputs: the defaults on `bare_class`, and the 64-bit CPU-note writer
of `note_class`, which hands two bytes to the callback and adds the cpu id. -/
theorem c13_note_writer_defaults_witness :
    cpu_write_elf32_qemunote bare_class count_bytes (fresh_cpu 0) 5 = 0 ∧
    cpu_write_elf64_qemunote bare_class count_bytes (fresh_cpu 0) 5 = 0 ∧
    cpu_write_elf32_note bare_class count_bytes (fresh_cpu 0) 3 5 = -1 ∧
    cpu_write_elf64_note bare_class count_bytes (fresh_cpu 0) 3 5 = -1 ∧
    cpu_write_elf64_note note_class count_bytes (fresh_cpu 0) 3 5 = count_bytes [5, 5] + 3 :=
  ⟨(c13_note_writer_defaults bare_class count_bytes (fresh_cpu 0) 3 5).1 rfl,
   (c13_note_writer_defaults bare_class count_bytes (fresh_cpu 0) 3 5).2.1 rfl,
   ((c13_note_writer_defaults bare_class count_bytes (fresh_cpu 0) 3 5).2.2.1 rfl).1,
   ((c13_note_writer_defaults bare_class count_bytes (fresh_cpu 0) 3 5).2.2.2.1 rfl).1,
   (c13_note_writer_defaults note_class count_bytes (fresh_cpu 0) 3 5).2.2.2.2.2.2.2
     (fun f _ cpuid arg => f [arg, arg] + cpuid) rfl⟩

/-! ## Version check and pre-load hook -/

theorem load_fields_common_exception_index (vs : List VMStateValue) (cpu : CPUState) :
    (vmstate_load_fields vmstate_cpu_common.fields vs cpu).2.exception_index
      = cpu.exception_index := by
  simp only [vmstate_cpu_common]
  cases vs with
  | nil => simp [vmstate_load_fields]
  | cons v vs =>
    cases v <;> simp [vmstate_load_fields, VMSTATE_UINT32_halted]
    cases vs with
    | nil => simp [vmstate_load_fields]
    | cons v2 vs =>
      cases v2 <;> simp [vmstate_load_fields, VMSTATE_UINT32_interrupt_request]

theorem load_fields_crash_exception_index (vs : List VMStateValue) (cpu : CPUState) :
    (vmstate_load_fields vmstate_cpu_common_crash_occurred.fields vs cpu).2.exception_index
      = cpu.exception_index := by
  cases vs with
  | nil => simp [vmstate_load_fields, vmstate_cpu_common_crash_occurred]
  | cons v vs =>
    cases v <;>
      simp [vmstate_load_fields, vmstate_cpu_common_crash_occurred,
        VMSTATE_BOOL_crash_occurred]

/-- Subsections of the stream other than "cpu_common/exception_index" leave
`exception_index` alone. -/
theorem subsection_load_exception_index (subs : List SavedSubsection) (cpu : CPUState)
    (h : ∀ s ∈ subs, s.name ≠ "cpu_common/exception_index") :
    (vmstate_subsection_load vmstate_cpu_common.subsections subs cpu).2.exception_index
      = cpu.exception_index := by
  induction subs generalizing cpu with
  | nil => simp [vmstate_subsection_load]
  | cons s rest ih =>
    have hs : s.name ≠ "cpu_common/exception_index" := h s (List.mem_cons_self _ _)
    have hrest : ∀ s ∈ rest, s.name ≠ "cpu_common/exception_index" :=
      fun x hx => h x (List.mem_cons_of_mem _ hx)
    simp only [vmstate_subsection_load]
    split
    · exact ih cpu hrest
    · rename_i d hd
      have hname := List.find?_some hd
      have hmem := List.mem_of_find?_eq_some hd
      simp only [vmstate_cpu_common, List.mem_cons, List.mem_singleton, List.not_mem_nil,
        or_false] at hmem
      have hd2 : d = vmstate_cpu_common_crash_occurred := by
        rcases hmem with h1 | h1
        · exfalso
          rw [h1] at hname
          simp [vmstate_cpu_common_exception_index] at hname
          exact hs hname.symm
        · exact h1
      have hf := load_fields_crash_exception_index s.fields cpu
      rw [hd2]
      split
      · rfl
      · split
        · rename_i c1 hc
          rw [hc] at hf
          exact hf
        · rename_i c1 hc
          rw [hc] at hf
          rw [ih c1 hrest]
          exact hf

theorem post_load_exception_index (tcg : Bool) (cpu : CPUState) (v : Int) :
    (cpu_common_post_load tcg cpu v).2.exception_index = cpu.exception_index := by
  unfold cpu_common_post_load
  split <;> simp [tlb_flush, tb_flush]

/-- C15: for every target instance, whatever its prior `exception_index`, every backend
setting and every stream that does not contain the subsection
"cpu_common/exception_index": the pre-load hook returns 0 and changes only
`exception_index`, to -1, and when the load returns, completed or not,
`exception_index` is -1. -/
theorem c15_exception_index_reset (tcg : Bool) (cpu : CPUState) (saved : SavedRecord)
    (h : ∀ s ∈ saved.subsections, s.name ≠ "cpu_common/exception_index") :
    cpu_common_pre_load cpu = (0, { cpu with exception_index := -1 }) ∧
    vmstate_cpu_common.pre_load = some cpu_common_pre_load ∧
    (vmstate_load_state tcg vmstate_cpu_common cpu saved).2.exception_index = -1 := by
  refine ⟨rfl, rfl, ?_⟩
  have hf := load_fields_common_exception_index saved.fields
    { cpu with exception_index := -1 }
  simp only [vmstate_load_state]
  have hpre : vmstate_cpu_common.pre_load = some cpu_common_pre_load := rfl
  have hpost : vmstate_cpu_common.post_load = some cpu_common_post_load := rfl
  simp only [hpre, hpost, cpu_common_pre_load, ne_eq, not_true_eq_false, if_false,
    cpu_common_post_load_fst]
  split
  · rfl
  · split
    · rename_i c1 hc
      rw [hc] at hf
      exact hf
    · rename_i c1 hc
      rw [hc] at hf
      have hs := subsection_load_exception_index saved.subsections c1 h
      split
      · rename_i c2 hc2
        rw [hc2] at hs
        simp only [post_load_exception_index]
        rw [hs]
        exact hf
      · rename_i err c2 hne hc2
        rw [hc2] at hs
        simp only
        rw [hs]
        exact hf

/-- C15 at a concrete input: `busy_cpu`, whose `exception_index` is 5, loads a stream
with the crash subsection and an undeclared subsection; the load completes with
`exception_index = -1`. -/
theorem c15_exception_index_reset_witness :
    (∀ s ∈ crash_stream.subsections, s.name ≠ "cpu_common/exception_index") ∧
    busy_cpu.exception_index = 5 ∧
    (vmstate_load_state true vmstate_cpu_common busy_cpu crash_stream).1 = LoadStatus.ok ∧
    (vmstate_load_state true vmstate_cpu_common busy_cpu crash_stream).2.exception_index
      = -1 :=
  ⟨by decide, by decide, by decide,
   (c15_exception_index_reset true busy_cpu crash_stream (by decide)).2.2⟩

/-! ## Single-step mode -/

/-- C17: in every execution of `cpu_abort`: the first four effects are the prefix, the
message, the newline and the state dump on stderr; the log sink receives exactly the
same writes, the dump with the same flags `CPU_DUMP_FPU | CPU_DUMP_CCOP`, if a separate
log is configured and `qemu_log_trylock` succeeded, and no write otherwise;
`qemu_log_trylock` is called iff a separate log is configured; there are as many
releases as successful acquires, at most one; all stderr writes come before the
acquire attempt and the log writes, the acquire before the log writes, the log writes
before the release, the release and every write before `replay_finish`, and
`replay_finish`, which occurs once, before `abort`; `abort` occurs once and is the last
effect, so the function does not return. -/
theorem c17_cpu_abort_trace (user sep lock : Bool) (fpu ccop : Nat) (cpu : CPUState)
    (msg : String) :
    (cpu_abort user sep lock fpu ccop cpu msg).take 4 =
      [AbortEvent.fprintf Sink.stderr "qemu: fatal: ", AbortEvent.vfprintf Sink.stderr msg,
       AbortEvent.fprintf Sink.stderr "\n",
       AbortEvent.cpu_dump_state cpu.self Sink.stderr (fpu ||| ccop)] ∧
    writes_to Sink.stderr (cpu_abort user sep lock fpu ccop cpu msg) =
      [Sum.inl "qemu: fatal: ", Sum.inl msg, Sum.inl "\n", Sum.inr (fpu ||| ccop)] ∧
    writes_to Sink.logfile (cpu_abort user sep lock fpu ccop cpu msg) =
      (if sep && lock then writes_to Sink.stderr (cpu_abort user sep lock fpu ccop cpu msg)
       else []) ∧
    (positions AbortEvent.is_trylock (cpu_abort user sep lock fpu ccop cpu msg)).length =
      (if sep then 1 else 0) ∧
    (positions AbortEvent.is_acquire (cpu_abort user sep lock fpu ccop cpu msg)).length =
      (if sep && lock then 1 else 0) ∧
    (positions AbortEvent.is_unlock (cpu_abort user sep lock fpu ccop cpu msg)).length =
      (positions AbortEvent.is_acquire (cpu_abort user sep lock fpu ccop cpu msg)).length ∧
    all_before (AbortEvent.writes Sink.stderr) AbortEvent.is_trylock
      (cpu_abort user sep lock fpu ccop cpu msg) ∧
    all_before (AbortEvent.writes Sink.stderr) (AbortEvent.writes Sink.logfile)
      (cpu_abort user sep lock fpu ccop cpu msg) ∧
    all_before AbortEvent.is_acquire (AbortEvent.writes Sink.logfile)
      (cpu_abort user sep lock fpu ccop cpu msg) ∧
    all_before (AbortEvent.writes Sink.logfile) AbortEvent.is_unlock
      (cpu_abort user sep lock fpu ccop cpu msg) ∧
    all_before AbortEvent.is_acquire AbortEvent.is_unlock
      (cpu_abort user sep lock fpu ccop cpu msg) ∧
    all_before AbortEvent.is_unlock AbortEvent.is_replay_finish
      (cpu_abort user sep lock fpu ccop cpu msg) ∧
    all_before (AbortEvent.writes Sink.stderr) AbortEvent.is_replay_finish
      (cpu_abort user sep lock fpu ccop cpu msg) ∧
    all_before (AbortEvent.writes Sink.logfile) AbortEvent.is_replay_finish
      (cpu_abort user sep lock fpu ccop cpu msg) ∧
    all_before AbortEvent.is_replay_finish AbortEvent.is_abort
      (cpu_abort user sep lock fpu ccop cpu msg) ∧
    (positions AbortEvent.is_replay_finish
      (cpu_abort user sep lock fpu ccop cpu msg)).length = 1 ∧
    positions AbortEvent.is_abort (cpu_abort user sep lock fpu ccop cpu msg) =
      [(cpu_abort user sep lock fpu ccop cpu msg).length - 1] := by
  cases user <;> cases sep <;> cases lock <;>
    simp [cpu_abort, writes_to, positions, positions_from, all_before, AbortEvent.writes,
      AbortEvent.written_sink, AbortEvent.is_acquire, AbortEvent.is_trylock,
      AbortEvent.is_unlock, AbortEvent.is_replay_finish, AbortEvent.is_abort]

/-- The trace of `cpu_abort` on a system build with a separate log whose lock is
acquired: twelve effects, the release at position 9, `replay_finish` at 10, `abort` at
11. -/
theorem cpu_abort_example :
    cpu_abort false true true 2 4 (fresh_cpu 6) "bad state" =
      [AbortEvent.fprintf Sink.stderr "qemu: fatal: ",
       AbortEvent.vfprintf Sink.stderr "bad state",
       AbortEvent.fprintf Sink.stderr "\n",
       AbortEvent.cpu_dump_state 6 Sink.stderr 6,
       AbortEvent.qemu_log_trylock true,
       AbortEvent.fprintf Sink.logfile "qemu: fatal: ",
       AbortEvent.vfprintf Sink.logfile "bad state",
       AbortEvent.fprintf Sink.logfile "\n",
       AbortEvent.cpu_dump_state 6 Sink.logfile 6,
       AbortEvent.qemu_log_unlock,
       AbortEvent.replay_finish,
       AbortEvent.abort] ∧
    positions AbortEvent.is_unlock (cpu_abort false true true 2 4 (fresh_cpu 6) "bad state")
      = [9] ∧
    positions AbortEvent.is_replay_finish
      (cpu_abort false true true 2 4 (fresh_cpu 6) "bad state") = [10] ∧
    positions (AbortEvent.writes Sink.logfile)
      (cpu_abort false true true 2 4 (fresh_cpu 6) "bad state") = [5, 6, 7, 8] ∧
    positions AbortEvent.is_acquire
      (cpu_abort false true false 2 4 (fresh_cpu 6) "bad state") = [] ∧
    positions AbortEvent.is_trylock
      (cpu_abort false true false 2 4 (fresh_cpu 6) "bad state") = [4] := by
  decide

/-! ## The post-load hook -/

theorem mask_testBit (i : Nat) (h1 : 1 ≤ i) (h2 : i ≤ 31) :
    Nat.testBit 0xFFFFFFFE i = true := by
  interval_cases i <;> decide

/-- C18: for every instance and version id, `cpu_common_post_load` returns 0 and leaves
`halted`, `exception_index`, `crash_occurred` and bits 1 to 31 of `interrupt_request`
as they were; when the software-execution backend is not active the instance is
unchanged, no flush requested; when it is active bit 0 of `interrupt_request` is clear
and one TLB flush and one translation-block flush are requested. -/
theorem c18_post_load_frame (tcg : Bool) (cpu : CPUState) (v : Int) :
    (cpu_common_post_load tcg cpu v).1 = 0 ∧
    (cpu_common_post_load tcg cpu v).2.halted = cpu.halted ∧
    (cpu_common_post_load tcg cpu v).2.exception_index = cpu.exception_index ∧
    (cpu_common_post_load tcg cpu v).2.crash_occurred = cpu.crash_occurred ∧
    (∀ i, 1 ≤ i → i ≤ 31 →
      (cpu_common_post_load tcg cpu v).2.interrupt_request.testBit i
        = cpu.interrupt_request.testBit i) ∧
    (tcg = false → (cpu_common_post_load tcg cpu v).2 = cpu) ∧
    (tcg = true →
      (cpu_common_post_load tcg cpu v).2.interrupt_request.testBit 0 = false ∧
      (cpu_common_post_load tcg cpu v).2.tlb_flush_count = cpu.tlb_flush_count + 1 ∧
      (cpu_common_post_load tcg cpu v).2.tb_flush_count = cpu.tb_flush_count + 1) := by
  cases tcg
  · simp [cpu_common_post_load]
  · simp only [cpu_common_post_load, if_true, tlb_flush, tb_flush]
    refine ⟨trivial, trivial, trivial, trivial, ?_, ?_, ?_⟩
    · intro i h1 h2
      simp only [Nat.testBit_land, mask_testBit i h1 h2, Bool.and_true]
    · intro h
      exact absurd h (by decide)
    · intro _
      exact ⟨land_mask_testBit_zero _, trivial, trivial⟩

/-- C18 at a concrete input: the hook on `busy_cpu`, whose `interrupt_request` is 3,
with the backend inactive (nothing changes) and active (bit 0 cleared, bit 1 kept, two
flushes requested). -/
theorem c18_post_load_frame_witness :
    (cpu_common_post_load false busy_cpu 1).2 = busy_cpu ∧
    (cpu_common_post_load true busy_cpu 1).2.interrupt_request.testBit 1
      = busy_cpu.interrupt_request.testBit 1 ∧
    ((cpu_common_post_load true busy_cpu 1).2.interrupt_request.testBit 0 = false ∧
     (cpu_common_post_load true busy_cpu 1).2.tlb_flush_count
       = busy_cpu.tlb_flush_count + 1 ∧
     (cpu_common_post_load true busy_cpu 1).2.tb_flush_count
       = busy_cpu.tb_flush_count + 1) :=
  ⟨(c18_post_load_frame false busy_cpu 1).2.2.2.2.2.1 rfl,
   (c18_post_load_frame true busy_cpu 1).2.2.2.2.1 1 (by decide) (by decide),
   (c18_post_load_frame true busy_cpu 1).2.2.2.2.2.2 rfl⟩

end QemuCpu
